import Mathlib

/-!
Verification development for the layered-queue devicetree compiler
(`scripts/dts_gen.py`, `scripts/canopen_eds_parser.py`,
`scripts/platform_adaptors.py`, `scripts/hil_test_gen.py`).

The Python sources are shallowly embedded as executable Lean definitions:
parsed devicetree nodes are records, the property bag is an ordered
association list mirroring a Python dict, and the resolver, resource
analyzer and code generators are pure functions translated clause by
clause from the scripts.
-/

namespace LQ

/-- Property values as produced by `parse_property_value` in
`scripts/dts_gen.py`: a single integer, an integer array, a string (also
used for a not-yet-resolved label reference), a list of label strings
(multi-reference), or the boolean `True` used for flag properties. -/
inductive PropValue where
  | pInt (i : Int)
  | pIntList (l : List Int)
  | pStr (s : String)
  | pStrList (l : List String)
  | pBool
  deriving DecidableEq, Repr, Inhabited

/-- Property bag of a node: an insertion-ordered mapping from property
name to value, mirroring the Python `dict` held in `DTSNode.properties`. -/
abbrev Props := List (String × PropValue)

/-- Dict lookup (`properties[k]` / `k in properties`): first binding wins;
the parser and resolver keep keys unique. -/
def getProp (ps : Props) (k : String) : Option PropValue :=
  match ps with
  | [] => none
  | (k', v) :: rest => if k' = k then some v else getProp rest k

/-- Dict assignment (`properties[k] = v`): replace the binding in place if
the key exists, otherwise append a new binding. -/
def setProp (ps : Props) (k : String) (v : PropValue) : Props :=
  match ps with
  | [] => [(k, v)]
  | (k', v') :: rest => if k' = k then (k, v) :: rest else (k', v') :: setProp rest k v

/-- Integer read of a property.  The Python code indexes the dict and uses
the value in integer arithmetic directly; on the (never generated)
non-integer case Python would raise, and the embedding reads `none`. -/
def getIntProp (ps : Props) (k : String) : Option Int :=
  match getProp ps k with
  | some (PropValue.pInt i) => some i
  | _ => none

/-- One parsed devicetree node (`class DTSNode` in `scripts/dts_gen.py`):
label, declared type (`compatible`), optional unit address, property bag,
and the `signal_id` attribute that the resolver attaches (absent, i.e.
`none`, before resolution). -/
structure DTSNode where
  label : String
  compatible : String
  address : Option String := none
  properties : Props := []
  signal_id : Option Int := none
  deriving DecidableEq, Repr, Inhabited

/-! ## Description parser (`simple_dts_parser` and `parse_property_value`) -/

/-- Python `str.startswith`, computed on the character list. -/
def strStartsWith (s pre : String) : Bool :=
  pre.toList.isPrefixOf s.toList

/-- Python `str.endswith`, computed on the character list. -/
def strEndsWith (s suf : String) : Bool :=
  suf.toList.isSuffixOf s.toList

/-- ASCII lowering of one character (`str.lower`; the device and platform
names this is applied to are ASCII). -/
def lowerChar (c : Char) : Char :=
  if 'A' ≤ c && c ≤ 'Z' then Char.ofNat (c.toNat + 32) else c

/-- Python `str.lower` on ASCII strings. -/
def asciiLower (s : String) : String :=
  String.mk (s.toList.map lowerChar)

/-- Whitespace for Python's `str.strip` and the regex class `\s`. -/
def isPyWs (c : Char) : Bool :=
  c = ' ' || c = '\t' || c = '\n' || c = '\r' || c = '\x0b' || c = '\x0c'

/-- Regex word character `\w` (the inputs are ASCII). -/
def isWordChar (c : Char) : Bool :=
  c.isAlpha || c.isDigit || c = '_'

/-- Character class `[\w-]` used for node and property names. -/
def isNameChar (c : Char) : Bool :=
  isWordChar c || c = '-'

/-- Suffix after the first newline, or `none` when there is no newline
(the non-greedy `//.*?\n` needs the newline to match at all). -/
def afterNewline : List Char → Option (List Char)
  | [] => none
  | '\n' :: rest => some rest
  | _ :: rest => afterNewline rest

/-- Suffix after the first closing `*/`, or `none` when the block comment
is unterminated (non-greedy `/\*.*?\*/` with DOTALL). -/
def afterBlockClose : List Char → Option (List Char)
  | [] => none
  | '*' :: '/' :: rest => some rest
  | _ :: rest => afterBlockClose rest

/-- Replace every `//` line comment by a newline
(`re.sub(r'//.*?\n', '\n', ...)`); a trailing comment with no newline is
left untouched, exactly as the regex leaves it unmatched. -/
def stripLineComments (fuel : Nat) (cs : List Char) : List Char :=
  match fuel, cs with
  | 0, rest => rest
  | _ + 1, [] => []
  | fuel + 1, '/' :: '/' :: rest =>
    (match afterNewline rest with
     | some after => '\n' :: stripLineComments fuel after
     | none => '/' :: '/' :: rest)
  | fuel + 1, c :: rest => c :: stripLineComments fuel rest

/-- Delete every `/* ... */` block comment
(`re.sub(r'/\*.*?\*/', '', ..., flags=re.DOTALL)`); an unterminated block
comment is left untouched. -/
def stripBlockComments (fuel : Nat) (cs : List Char) : List Char :=
  match fuel, cs with
  | 0, rest => rest
  | _ + 1, [] => []
  | fuel + 1, '/' :: '*' :: rest =>
    (match afterBlockClose rest with
     | some after => stripBlockComments fuel after
     | none => '/' :: '*' :: rest)
  | fuel + 1, c :: rest => c :: stripBlockComments fuel rest

/-- Longest prefix of characters satisfying `p`, with the rest (greedy
`X+` / `X*` matching for a one-character class). -/
def takeWhileSplit (p : Char → Bool) : List Char → (List Char × List Char)
  | [] => ([], [])
  | c :: rest =>
    if p c then
      let (tk, rst) := takeWhileSplit p rest
      (c :: tk, rst)
    else ([], c :: rest)

/-- Drop leading regex whitespace (`\s*`). -/
def skipWs (cs : List Char) : List Char :=
  (takeWhileSplit isPyWs cs).2

/-- Python `str.strip()`. -/
def strStrip (s : String) : String :=
  String.mk (((takeWhileSplit isPyWs ((takeWhileSplit isPyWs s.toList).2.reverse)).2).reverse)

/-- Python `str.rstrip(';')`. -/
def rstripSemi (s : String) : String :=
  String.mk ((takeWhileSplit (fun c => c = ';') s.toList.reverse).2.reverse)

/-- Python `str.split()` with no argument: split on whitespace runs,
discarding empty pieces. -/
def splitWs (fuel : Nat) (cs : List Char) : List String :=
  match fuel, skipWs cs with
  | _, [] => []
  | 0, _ => []
  | fuel + 1, rest =>
    let (word, rst) := takeWhileSplit (fun c => !isPyWs c) rest
    String.mk word :: splitWs fuel rst

/-- Value of a digit character in bases up to 16. -/
def hexVal (c : Char) : Nat :=
  if c.isDigit then c.toNat - '0'.toNat
  else if 'a' ≤ c ∧ c ≤ 'f' then c.toNat - 'a'.toNat + 10
  else if 'A' ≤ c ∧ c ≤ 'F' then c.toNat - 'A'.toNat + 10
  else 16

/-- Digit string in base `b` (nonempty, all digits in range), as a
natural number. -/
def digitsToNat (b : Nat) (cs : List Char) : Option Nat :=
  match cs with
  | [] => none
  | _ =>
    cs.foldl
      (fun acc c =>
        match acc with
        | none => none
        | some a => if hexVal c < b then some (a * b + hexVal c) else none)
      (some 0)

/-- Python `int(s, 0)`: optional sign, then a `0x`/`0o`/`0b` literal or a
decimal literal; a decimal with a leading zero is only legal when it is
all zeros.  (Digit-group underscores are not modelled; they do not occur
in devicetree sources.) -/
def parseIntLit (s : String) : Option Int :=
  let go : List Char → Option Nat := fun cs =>
    match cs with
    | '0' :: 'x' :: rest => digitsToNat 16 rest
    | '0' :: 'X' :: rest => digitsToNat 16 rest
    | '0' :: 'b' :: rest => digitsToNat 2 rest
    | '0' :: 'B' :: rest => digitsToNat 2 rest
    | '0' :: 'o' :: rest => digitsToNat 8 rest
    | '0' :: 'O' :: rest => digitsToNat 8 rest
    | '0' :: rest => if rest.all (fun c => c = '0') then some 0 else none
    | rest => digitsToNat 10 rest
  match s.toList with
  | '-' :: rest => (go rest).map (fun n => -(n : Int))
  | '+' :: rest => (go rest).map (fun n => (n : Int))
  | cs => (go cs).map (fun n => (n : Int))

/-- Python `s[1:-1]`. -/
def dropFirstLast (s : String) : String :=
  String.mk (s.toList.drop 1).dropLast

/-- Python `s[1:]` applied to a reference item when it starts with `&`. -/
def stripAmp (s : String) : String :=
  if strStartsWith s "&" then String.mk (s.toList.drop 1) else s

/-- All items parsed as integer literals, or `none` if any fails (the
`try`/`except ValueError` around the list comprehension). -/
def allIntLits : List String → Option (List Int)
  | [] => some []
  | s :: rest =>
    match parseIntLit s, allIntLits rest with
    | some i, some l => some (i :: l)
    | _, _ => none

/-- The value grammar of `parse_property_value` in `scripts/dts_gen.py`:
angle-bracket values containing `&` are label references (one or many),
other angle-bracket values are integers (one or an array, falling back to
the raw strings when not numeric), double-quoted values are strings, an
empty value is the boolean flag `True`, and anything else is returned as
the raw string. -/
def parse_property_value (raw : String) : PropValue :=
  let v := rstripSemi (strStrip raw)
  if strStartsWith v "<" && v.toList.contains '&' then
    let inner := strStrip (dropFirstLast v)
    if inner.toList.contains ' ' then
      PropValue.pStrList ((splitWs (inner.length + 1) inner.toList).map stripAmp)
    else
      PropValue.pStr (stripAmp inner)
  else if strStartsWith v "<" && strEndsWith v ">" then
    let inner := strStrip (dropFirstLast v)
    match splitWs (inner.length + 1) inner.toList with
    | [n] =>
      (match parseIntLit n with
       | some i => PropValue.pInt i
       | none => PropValue.pStr n)
    | nums =>
      (match allIntLits nums with
       | some l => PropValue.pIntList l
       | none => PropValue.pStrList nums)
  else if strStartsWith v "\"" && strEndsWith v "\"" then
    PropValue.pStr (dropFirstLast v)
  else if v = "" then
    PropValue.pBool
  else
    PropValue.pStr v

/-- Body of a node as matched by `\{([^{}]*(?:\{[^{}]*\}[^{}]*)*)\}`:
scan after the opening brace with at most one level of inner braces; the
match ends at the first brace closing the node, and fails (no node here)
on a second nesting level or an unterminated body.  Returns the body and
the suffix after the closing brace. -/
def bodyScan : List Char → Bool → Option (List Char × List Char)
  | [], _ => none
  | '{' :: rest, false =>
    (match bodyScan rest true with
     | some (content, rst) => some ('{' :: content, rst)
     | none => none)
  | '{' :: _, true => none
  | '}' :: rest, true =>
    (match bodyScan rest false with
     | some (content, rst) => some ('}' :: content, rst)
     | none => none)
  | '}' :: rest, false => some ([], rest)
  | c :: rest, d =>
    (match bodyScan rest d with
     | some (content, rst) => some (c :: content, rst)
     | none => none)

/-- Attempt the node pattern
`(\w+):\s*[\w-]+(?:@(\w+))?\s*\{body\}` anchored at the head of `cs`:
label, optional unit address, body, and the suffix after the node. -/
def matchNodeAt (cs : List Char) :
    Option (String × Option String × List Char × List Char) :=
  let (lbl, r1) := takeWhileSplit isWordChar cs
  if lbl.isEmpty then none
  else
    match r1 with
    | ':' :: r2 =>
      let r3 := skipWs r2
      let (nm, r4) := takeWhileSplit isNameChar r3
      if nm.isEmpty then none
      else
        let (addr, r5) :=
          match r4 with
          | '@' :: r4' =>
            let (ad, r5') := takeWhileSplit isWordChar r4'
            if ad.isEmpty then (none, none) else (some (String.mk ad), some r5')
          | _ => (none, some r4)
        match r5 with
        | none => none
        | some r5' =>
          match skipWs r5' with
          | '{' :: r6 =>
            (match bodyScan r6 false with
             | some (content, rest) => some (String.mk lbl, addr, content, rest)
             | none => none)
          | _ => none
    | _ => none

/-- Search for `compatible\s*=\s*"([^"]+)"` anywhere in the node body
(leftmost match, no word boundary required by the source pattern). -/
def searchCompat (fuel : Nat) (cs : List Char) : Option String :=
  match fuel, cs with
  | 0, _ => none
  | _ + 1, [] => none
  | fuel + 1, c :: rest =>
    let attempt : Option String :=
      let pat := "compatible".toList
      if cs.take pat.length = pat then
        match skipWs (cs.drop pat.length) with
        | '=' :: r2 =>
          (match skipWs r2 with
           | '"' :: r3 =>
             let (str, r4) := takeWhileSplit (fun ch => ch ≠ '"') r3
             (match r4 with
              | '"' :: _ => if str.isEmpty then none else some (String.mk str)
              | _ => none)
           | _ => none)
        | _ => none
      else none
    match attempt with
    | some s => some s
    | none =>
      let _ := c
      searchCompat fuel rest

/-- Scan the node body for property matches
`([\w-]+)\s*=\s*([^;]+);`, converting each name to snake case and each
value through `parse_property_value`; later matches for the same name
overwrite earlier ones, as dict assignment does. -/
def scanProps (fuel : Nat) (cs : List Char) (acc : Props) : Props :=
  match fuel, cs with
  | 0, _ => acc
  | _ + 1, [] => acc
  | fuel + 1, _ :: tail =>
    let attempt : Option (String × String × List Char) :=
      let (nm, r1) := takeWhileSplit isNameChar cs
      if nm.isEmpty then none
      else
        match skipWs r1 with
        | '=' :: r2 =>
          let r3 := skipWs r2
          let (valChars, r4) := takeWhileSplit (fun ch => ch ≠ ';') r3
          if valChars.isEmpty then none
          else
            match r4 with
            | ';' :: r5 => some (String.mk nm, String.mk valChars, r5)
            | _ => none
        | _ => none
    match attempt with
    | some (nm, val, rest) =>
      let snake := String.mk (nm.toList.map (fun ch => if ch = '-' then '_' else ch))
      scanProps fuel rest (setProp acc snake (parse_property_value val))
    | none => scanProps fuel tail acc

/-- Word-boundary search `\bkebab\b` for the bare boolean properties. -/
def wordBoundSearch (fuel : Nat) (cs : List Char) (pat : List Char) (prevWord : Bool) : Bool :=
  match fuel, cs with
  | 0, _ => false
  | _ + 1, [] => false
  | fuel + 1, c :: rest =>
    let here : Bool :=
      !prevWord && cs.take pat.length = pat &&
        (match cs.drop pat.length with
         | [] => true
         | nc :: _ => !isWordChar nc)
    here || wordBoundSearch fuel rest pat (isWordChar c)

/-- The bare boolean properties the parser recognizes, applied in source
order: each is set to `True` when its kebab-case spelling occurs with
word boundaries in the body and the snake-case key is not already
present. -/
def applyBoolProps (content : List Char) (ps : Props) : Props :=
  ["signed", "check_staleness", "check_range", "check_status"].foldl
    (fun acc bp =>
      let kebab := bp.toList.map (fun ch => if ch = '_' then '-' else ch)
      if wordBoundSearch (content.length + 1) content kebab false &&
          (getProp acc bp).isNone then
        setProp acc bp PropValue.pBool
      else acc)
    ps

/-- Assemble one node from a raw match: dropped silently when the body
has no `compatible` string (free-floating structural braces). -/
def buildNode (lbl : String) (addr : Option String) (content : List Char) :
    Option DTSNode :=
  match searchCompat (content.length + 1) content with
  | none => none
  | some compat =>
    some { label := lbl, compatible := compat, address := addr,
           properties := applyBoolProps content (scanProps (content.length + 1) content []),
           signal_id := none }

/-- Scan the whole (comment-stripped) source for node matches, continuing
after each match and advancing one character past a failed attempt, as
`re.finditer` does. -/
def scanNodes (fuel : Nat) (cs : List Char) : List DTSNode :=
  match fuel, cs with
  | 0, _ => []
  | _ + 1, [] => []
  | fuel + 1, _ :: tail =>
    match matchNodeAt cs with
    | some (lbl, addr, content, rest) =>
      (match buildNode lbl addr content with
       | some nd => nd :: scanNodes fuel rest
       | none => scanNodes fuel rest)
    | none => scanNodes fuel tail

/-- The description parser `simple_dts_parser` (the second, effective
definition in `scripts/dts_gen.py`): strip comments, then extract every
node the pattern matches.  It is a total function with no error channel:
malformed brace nesting simply yields fewer (or no) matches. -/
def simple_dts_parse (src : String) : List DTSNode :=
  let cs0 := stripLineComments (src.length + 1) src.toList
  let cs := stripBlockComments (cs0.length + 1) cs0
  scanNodes (cs.length + 1) cs

/-! ## Symbol and signal resolver (`resolve_phandles_and_assign_ids`) -/

/-- Node types that receive an auto-assigned signal identity in
declaration order: hardware inputs (`lq,hw-*`) and the recognized
transform types. -/
def isAutoSignal (compat : String) : Bool :=
  strStartsWith compat "lq,hw-" ||
    (compat = "lq,scale" || compat = "lq,remap" || compat = "lq,pid" ||
      compat = "lq,mid-merge")

/-- Phase one of the resolver: walk the nodes in declaration order with a
running counter.  A node with an explicit `signal_id` property keeps it
and pushes the counter past it; auto-signal nodes take the next counter
value (also recorded into the property bag); a fault monitor without an
explicit `fault_output_signal_id` property gets the next counter value as
its derived fault-output identity. -/
def assignIds (c : Int) : List DTSNode → List DTSNode
  | [] => []
  | n :: rest =>
    match getIntProp n.properties "signal_id" with
    | some i => { n with signal_id := some i } :: assignIds (max c (i + 1)) rest
    | none =>
      if isAutoSignal n.compatible then
        { n with signal_id := some c,
                 properties := setProp n.properties "signal_id" (PropValue.pInt c) }
          :: assignIds (c + 1) rest
      else if n.compatible = "lq,fault-monitor" then
        if (getProp n.properties "fault_output_signal_id").isSome then
          n :: assignIds c rest
        else
          { n with signal_id := some c,
                   properties := setProp n.properties "fault_output_signal_id" (PropValue.pInt c) }
            :: assignIds (c + 1) rest
      else n :: assignIds c rest

/-- Label table lookup: the Python code builds `{node.label: node}` so a
later node with the same label shadows an earlier one, and reference
resolution reads the target's `signal_id` attribute. -/
def lookupLabelSig (nodes : List DTSNode) (lbl : String) : Option (Option Int) :=
  match nodes with
  | [] => none
  | n :: rest =>
    match lookupLabelSig rest lbl with
    | some r => some r
    | none => if n.label = lbl then some n.signal_id else none

/-- Resolve one single-reference property: if `key` holds a string that is
a known label whose node has an assigned identity, write that identity to
`dest`; otherwise leave the bag unchanged. -/
def resolveRef (all : List DTSNode) (ps : Props) (key dest : String) : Props :=
  match getProp ps key with
  | some (PropValue.pStr r) =>
    match lookupLabelSig all r with
    | some (some sid) => setProp ps dest (PropValue.pInt sid)
    | _ => ps
  | _ => ps

/-- Unified-name / legacy-name pair for a single reference: the unified
property is tried first; the legacy property is only consulted when the
unified one is absent (`if`/`elif` in the source). -/
def resolveSingle (all : List DTSNode) (ps : Props) (uni legacy dest : String) : Props :=
  if (getProp ps uni).isSome then resolveRef all ps uni dest
  else if (getProp ps legacy).isSome then resolveRef all ps legacy dest
  else ps

/-- One entry of a multi-reference property after the Python
`if not isinstance(refs, list): refs = [refs]` normalization. -/
inductive RefItem where
  | rstr (s : String)
  | rint (i : Int)
  deriving DecidableEq, Repr

/-- View a property value as the reference list the Python loop iterates
over.  A bare boolean flag is a Python `True`, which `isinstance(·, int)`
accepts with value 1. -/
def asRefList : PropValue → List RefItem
  | PropValue.pStrList l => l.map RefItem.rstr
  | PropValue.pIntList l => l.map RefItem.rint
  | PropValue.pStr s => [RefItem.rstr s]
  | PropValue.pInt i => [RefItem.rint i]
  | PropValue.pBool => [RefItem.rint 1]

/-- Collect resolved identities from a reference list: a string entry
contributes its target's identity when the label is known and assigned,
and is silently dropped otherwise; an integer entry passes through. -/
def itemIds (all : List DTSNode) : List RefItem → List Int
  | [] => []
  | RefItem.rstr s :: rest =>
    match lookupLabelSig all s with
    | some (some sid) => sid :: itemIds all rest
    | _ => itemIds all rest
  | RefItem.rint i :: rest => i :: itemIds all rest

/-- Resolve a multi-reference property (`sources`, legacy
`input_signal_ids`): the resolved identity list is always written to the
canonical `input_signal_ids` key. -/
def resolveMulti (all : List DTSNode) (ps : Props) (uni legacy : String) : Props :=
  match getProp ps uni with
  | some v => setProp ps "input_signal_ids" (PropValue.pIntList (itemIds all (asRefList v)))
  | none =>
    match getProp ps legacy with
    | some v => setProp ps "input_signal_ids" (PropValue.pIntList (itemIds all (asRefList v)))
    | none => ps

/-- Phase two of the resolver, for one node: the four reference blocks of
the source run in order (`source`, `sources`, `input`, `output`), each
reading the property bag left by the previous one. -/
def resolveNodeRefs (all : List DTSNode) (n : DTSNode) : DTSNode :=
  { n with properties :=
      let ps1 := resolveSingle all n.properties "source" "source_signal" "source_signal"
      let ps2 := resolveMulti all ps1 "sources" "input_signal_ids"
      let ps3 := resolveSingle all ps2 "input" "input_signal" "input_signal"
      resolveSingle all ps3 "output" "output_signal" "output_signal" }

/-- The resolver pass `resolve_phandles_and_assign_ids`: initialize the
`signal_id` attribute of every node to `None`, assign signal identities
in declaration order, then resolve every reference property against the
label table of the assigned collection.  There is no failure channel: an
unresolvable reference is silently left as it is. -/
def resolve_phandles_and_assign_ids (nodes : List DTSNode) : List DTSNode :=
  let assigned := assignIds 0 (nodes.map (fun n => { n with signal_id := none }))
  assigned.map (resolveNodeRefs assigned)

/-! ## Resource analyzer (`calculate_resource_counts`) -/

/-- The exact static resource bounds computed from the resolved node
collection (the `counts` dict of `calculate_resource_counts`). -/
structure ResourceCounts where
  num_signals : Int
  num_hw_inputs : Nat
  num_scales : Nat
  num_remaps : Nat
  num_merges : Nat
  num_fault_monitors : Nat
  num_cyclic_outputs : Nat
  num_pid_controllers : Nat
  num_verified_outputs : Nat
  max_merge_inputs : Nat
  max_output_events : Nat
  hw_ringbuffer_size : Int
  deriving DecidableEq, Repr

/-- Literal node-type test of the counting loop's first branch:
hardware-input nodes. -/
def predHw (n : DTSNode) : Bool := strStartsWith n.compatible "lq,hw-"

/-- Scale-transform node (either spelling accepted by the analyzer). -/
def predScale (n : DTSNode) : Bool :=
  n.compatible = "lq-scale" || n.compatible = "lq,scale"

/-- Remap-transform node. -/
def predRemap (n : DTSNode) : Bool := n.compatible = "lq,remap"

/-- Merge/vote node. -/
def predMerge (n : DTSNode) : Bool := n.compatible = "lq,mid-merge"

/-- Fault-monitor node. -/
def predFault (n : DTSNode) : Bool := n.compatible = "lq,fault-monitor"

/-- Cyclic-output node. -/
def predCyclic (n : DTSNode) : Bool := n.compatible = "lq,cyclic-output"

/-- PID-controller node (either spelling). -/
def predPid (n : DTSNode) : Bool :=
  n.compatible = "lq,pid" || n.compatible = "lq,pid-controller"

/-- Verified-output node. -/
def predVerified (n : DTSNode) : Bool := n.compatible = "lq,verified-output"

/-- Length of a merge block's input list as the analyzer measures it:
`properties.get('input_signal_ids', [])`, a bare integer wrapped into a
one-element list, then `len(...)` (Python `len` of a string is its
character count; `len` of a boolean would raise and cannot occur after
resolution). -/
def mergeInputLen (ps : Props) : Nat :=
  match getProp ps "input_signal_ids" with
  | none => 0
  | some (PropValue.pIntList l) => l.length
  | some (PropValue.pStrList l) => l.length
  | some (PropValue.pInt _) => 1
  | some (PropValue.pStr s) => s.length
  | some PropValue.pBool => 1

/-- One step of the per-type counting loop of
`calculate_resource_counts`: the `if`/`elif` chain over the declared node
type, also tracking the largest merge input list seen so far. -/
def countStep (c : ResourceCounts) (n : DTSNode) : ResourceCounts :=
  if predHw n then
    { c with num_hw_inputs := c.num_hw_inputs + 1 }
  else if predScale n then
    { c with num_scales := c.num_scales + 1 }
  else if predRemap n then
    { c with num_remaps := c.num_remaps + 1 }
  else if predMerge n then
    { c with num_merges := c.num_merges + 1,
             max_merge_inputs := max c.max_merge_inputs (mergeInputLen n.properties) }
  else if predFault n then
    { c with num_fault_monitors := c.num_fault_monitors + 1 }
  else if predCyclic n then
    { c with num_cyclic_outputs := c.num_cyclic_outputs + 1 }
  else if predPid n then
    { c with num_pid_controllers := c.num_pid_controllers + 1 }
  else if predVerified n then
    { c with num_verified_outputs := c.num_verified_outputs + 1 }
  else c

/-- Fold an optional identity into the running maximum
(`if present: max(acc, v)`). -/
def maxOpt (acc : Int) : Option Int → Int
  | some v => max acc v
  | none => acc

/-- One step of the maximum-identity loop: the node's `signal_id`
attribute, then the explicit `signal_id`, `output_signal_id` and
`fault_output_signal_id` properties, each folded into the running
maximum. -/
def maxSigStep (acc : Int) (n : DTSNode) : Int :=
  maxOpt
    (maxOpt
      (maxOpt (maxOpt acc n.signal_id) (getIntProp n.properties "signal_id"))
      (getIntProp n.properties "output_signal_id"))
    (getIntProp n.properties "fault_output_signal_id")

/-- The initial `counts` dict, with the default ring-buffer depth. -/
def initialCounts : ResourceCounts :=
  { num_signals := 0, num_hw_inputs := 0, num_scales := 0, num_remaps := 0,
    num_merges := 0, num_fault_monitors := 0, num_cyclic_outputs := 0,
    num_pid_controllers := 0, num_verified_outputs := 0,
    max_merge_inputs := 0, max_output_events := 0, hw_ringbuffer_size := 128 }

/-- Ring-buffer depth: the first engine node's override when present,
else the default 128. -/
def ringOverride (nodes : List DTSNode) : Int :=
  match nodes.find? (fun n => n.compatible = "lq,engine") with
  | some eng =>
    match getIntProp eng.properties "hw_ringbuffer_size" with
    | some v => v
    | none => 128
  | none => 128

/-- The analyzer `calculate_resource_counts`: take the engine node's
ring-buffer override if present, count nodes by declared type, set
`num_signals` to one plus the running maximum identity (which starts at
0), and derive the output-event bound `max(2 * cyclic outputs, 16)`. -/
def calculate_resource_counts (nodes : List DTSNode) : ResourceCounts :=
  let c1 := nodes.foldl countStep
    { initialCounts with hw_ringbuffer_size := ringOverride nodes }
  { c1 with num_signals := nodes.foldl maxSigStep 0 + 1,
            max_output_events := max (c1.num_cyclic_outputs * 2) 16 }

/-! ## Rendering helpers shared by the code generators -/

/-- Python `str(...)` of a property value as it appears inside the
generated text (`None` never reaches these call sites; lists use the
Python list display). -/
def pvStr : PropValue → String
  | PropValue.pInt i => toString i
  | PropValue.pStr s => s
  | PropValue.pIntList l => "[" ++ String.intercalate ", " (l.map toString) ++ "]"
  | PropValue.pStrList l =>
    "[" ++ String.intercalate ", " (l.map (fun s => "\x27" ++ s ++ "\x27")) ++ "]"
  | PropValue.pBool => "True"

/-- Python `properties.get(k, default)` rendered with `str`. -/
def pvGetStr (ps : Props) (k : String) (dflt : String) : String :=
  match getProp ps k with
  | some v => pvStr v
  | none => dflt

/-- Python `properties.get(k, d)` used in integer arithmetic (the
non-integer case would raise in Python and does not occur after
resolution). -/
def getIntPropD (ps : Props) (k : String) (d : Int) : Int :=
  match getIntProp ps k with
  | some v => v
  | none => d

/-- Python truthiness of a property value (`if wake_fn:`). -/
def pvTruthy : PropValue → Bool
  | PropValue.pInt i => i ≠ 0
  | PropValue.pStr s => s ≠ ""
  | PropValue.pIntList l => !l.isEmpty
  | PropValue.pStrList l => !l.isEmpty
  | PropValue.pBool => true

/-- The `input_signal_ids` list as integers (bare integer wrapped), as the
source generator reads it before `max(...)` and `join(...)`; non-integer
contents would raise in Python and cannot occur after resolution. -/
def inputIdsOf (ps : Props) : List Int :=
  match getProp ps "input_signal_ids" with
  | some (PropValue.pIntList l) => l
  | some (PropValue.pInt i) => [i]
  | _ => []

/-! ## Core source generator (`generate_source`): node categorization -/

/-- Category lists built at the top of `generate_source`, together with
the node list as mutated by the generalized input/output normalization
(`lq,input` with a CAN device becomes `lq,hw-can-input`, `lq,output`
becomes `lq,cyclic-output`, and both get a `device_index` property). -/
structure SourceCats where
  hw_inputs : List DTSNode
  merges : List DTSNode
  fault_monitors : List DTSNode
  cyclic_outputs : List DTSNode
  crosscheck_nodes : List DTSNode
  mutatedNodes : List DTSNode

/-- First index where `can` followed by at least one decimal digit occurs
(the `re.search(r'can(\d+)', ...)` scan), returning the digit run's
value. -/
def searchCanIndex (fuel : Nat) (cs : List Char) : Option Nat :=
  match fuel, cs with
  | 0, _ => none
  | _ + 1, [] => none
  | fuel + 1, _ :: tail =>
    let attempt : Option Nat :=
      match cs with
      | 'c' :: 'a' :: 'n' :: r =>
        let (ds, _) := takeWhileSplit Char.isDigit r
        if ds.isEmpty then none else digitsToNat 10 ds
      | _ => none
    match attempt with
    | some v => some v
    | none => searchCanIndex fuel tail

/-- Substring containment (Python `'can' in dev.lower()` and the
`in`-checks of the HIL generator). -/
def strContains (fuel : Nat) (hay pat : List Char) : Bool :=
  match fuel, hay with
  | 0, _ => false
  | _ + 1, [] => pat.isEmpty
  | fuel + 1, _ :: tail =>
    hay.take pat.length = pat || strContains fuel tail pat

/-- Substring test on strings. -/
def strHas (hay pat : String) : Bool :=
  strContains (hay.length + 1) hay.toList pat.toList

/-- One step of the categorization loop of `generate_source`.  Generic
`lq,input` / `lq,output` nodes whose `device` property mentions a CAN
device are rewritten in place to the concrete hardware types; all other
generic nodes are carried through uncategorized. -/
def categorizeStep (acc : SourceCats) (n : DTSNode) : SourceCats :=
  if n.compatible = "lq,engine" then
    { acc with mutatedNodes := acc.mutatedNodes ++ [n] }
  else if n.compatible = "lq,input" || n.compatible = "lq,output" then
    match getProp n.properties "device" with
    | some (PropValue.pStr dev) =>
      if strHas (asciiLower dev) "can" then
        let devIdx : Nat := (searchCanIndex (dev.length + 1) (asciiLower dev).toList).getD 0
        let n' := { n with properties := setProp n.properties "device_index" (PropValue.pInt devIdx) }
        if n.compatible = "lq,input" then
          let n'' := { n' with compatible := "lq,hw-can-input" }
          { acc with hw_inputs := acc.hw_inputs ++ [n''],
                     mutatedNodes := acc.mutatedNodes ++ [n''] }
        else
          let n'' := { n' with compatible := "lq,cyclic-output" }
          { acc with cyclic_outputs := acc.cyclic_outputs ++ [n''],
                     mutatedNodes := acc.mutatedNodes ++ [n''] }
      else { acc with mutatedNodes := acc.mutatedNodes ++ [n] }
    | _ => { acc with mutatedNodes := acc.mutatedNodes ++ [n] }
  else if strStartsWith n.compatible "lq,hw-" then
    { acc with hw_inputs := acc.hw_inputs ++ [n], mutatedNodes := acc.mutatedNodes ++ [n] }
  else if n.compatible = "lq,mid-merge" then
    { acc with merges := acc.merges ++ [n], mutatedNodes := acc.mutatedNodes ++ [n] }
  else if n.compatible = "lq,fault-monitor" then
    { acc with fault_monitors := acc.fault_monitors ++ [n], mutatedNodes := acc.mutatedNodes ++ [n] }
  else if n.compatible = "lq,cyclic-output" then
    { acc with cyclic_outputs := acc.cyclic_outputs ++ [n], mutatedNodes := acc.mutatedNodes ++ [n] }
  else if n.compatible = "lq,event-crosscheck" then
    { acc with crosscheck_nodes := acc.crosscheck_nodes ++ [n], mutatedNodes := acc.mutatedNodes ++ [n] }
  else
    { acc with mutatedNodes := acc.mutatedNodes ++ [n] }

/-- Node categorization of `generate_source` over the whole collection. -/
def sourceCategorize (nodes : List DTSNode) : SourceCats :=
  nodes.foldl categorizeStep
    { hw_inputs := [], merges := [], fault_monitors := [], cyclic_outputs := [],
      crosscheck_nodes := [], mutatedNodes := [] }

/-- Output-type value of a cyclic-output node
(`properties.get('output_type', 'can')`). -/
def outputTypeVal (n : DTSNode) : PropValue :=
  (getProp n.properties "output_type").getD (PropValue.pStr "can")

/-- Membership in the `output_types_used` set of `generate_source`. -/
def usedType (cyclic : List DTSNode) (t : String) : Bool :=
  cyclic.any (fun n => outputTypeVal n == PropValue.pStr t)

/-- The maximum signal identity recomputed locally by `generate_source`
(lines 663-684 of the script), reading only properties with default 0. -/
def sourceMaxSignalId (cats : SourceCats) : Int :=
  let m1 := cats.hw_inputs.foldl (fun acc n => max acc (getIntPropD n.properties "signal_id" 0)) 0
  let m2 := cats.merges.foldl
    (fun acc n =>
      let acc1 := max acc (getIntPropD n.properties "output_signal_id" 0)
      match inputIdsOf n.properties with
      | [] => acc1
      | l => max acc1 (l.foldl max (l.headD 0)))
    m1
  let m3 := cats.cyclic_outputs.foldl
    (fun acc n => max acc (getIntPropD n.properties "source_signal_id" 0)) m2
  cats.fault_monitors.foldl
    (fun acc n =>
      max (max acc (getIntPropD n.properties "input_signal_id" 0))
        (getIntPropD n.properties "fault_output_signal_id" 0))
    m3

/-! ## Resource-bounds header (`generate_config_header`) -/

/-- Percentage saving banner of the config header: Python computes
`int((1 - n/32) * 100)` when `n < 32`, which for these dyadic operands is
exactly `(32 - n) * 100 / 32` rounded toward zero. -/
def signalSavingPct (n : Int) : Int :=
  if n < 32 then ((32 - n) * 100) / 32 else 0

/-- Text of `lq_config.h` as written by `generate_config_header`. -/
def configHeaderContent (c : ResourceCounts) : String :=
  "/*\n * AUTO-GENERATED FILE - DO NOT EDIT\n * Generated from devicetree by scripts/dts_gen.py\n * \n * This file defines exact resource counts based on your devicetree.\n * No manual Kconfig tuning needed - memory automatically optimized!\n * \n * Signal array memory: " ++
    toString c.num_signals ++ " signals (vs default 32)\n * Savings: ~" ++
    toString (signalSavingPct c.num_signals) ++
    "% reduction in static allocation\n */\n\n#ifndef LQ_CONFIG_H_\n#define LQ_CONFIG_H_\n\n/* Signal counts - auto-calculated from DTS */\n#define LQ_MAX_SIGNALS              " ++
    toString c.num_signals ++
    "\n\n/* Driver instance counts - exact counts from DTS */\n#define LQ_MAX_HW_INPUTS            " ++
    toString c.num_hw_inputs ++ "\n#define LQ_MAX_SCALES               " ++
    toString c.num_scales ++ "\n#define LQ_MAX_REMAPS               " ++
    toString c.num_remaps ++ "\n#define LQ_MAX_MERGES               " ++
    toString c.num_merges ++ "\n#define LQ_MAX_FAULT_MONITORS       " ++
    toString c.num_fault_monitors ++ "\n#define LQ_MAX_CYCLIC_OUTPUTS       " ++
    toString c.num_cyclic_outputs ++ "\n#define LQ_MAX_PID_CONTROLLERS      " ++
    toString c.num_pid_controllers ++ "\n#define LQ_MAX_VERIFIED_OUTPUTS     " ++
    toString c.num_verified_outputs ++
    "\n\n/* Buffer sizes - calculated from actual usage */\n#define LQ_MAX_MERGE_INPUTS         " ++
    toString c.max_merge_inputs ++ "\n#define LQ_MAX_OUTPUT_EVENTS        " ++
    toString c.max_output_events ++ "\n#define LQ_HW_RINGBUFFER_SIZE       " ++
    toString c.hw_ringbuffer_size ++
    "\n\n/* DTS generation metadata */\n#define LQ_CONFIG_FROM_DTS          1\n#define LQ_CONFIG_SIGNAL_COUNT      " ++
    toString c.num_signals ++ "\n\n#endif /* LQ_CONFIG_H_ */\n"

/-! ## Declaration header (`generate_header`) -/

/-- Wake-function names collected from the fault monitors (`set` plus
`sorted`, so duplicates collapse and order is lexicographic). -/
def wakeFnNames (fault_monitors : List DTSNode) : List String :=
  let collected := fault_monitors.foldl
    (fun acc n =>
      match getProp n.properties "wake_function" with
      | some v => if pvTruthy v then acc ++ [pvStr v] else acc
      | none => acc)
    []
  collected.dedup.mergeSort (fun a b => a ≤ b)

/-- Text of `lq_generated.h` as written by `generate_header`. -/
def headerContent (nodes : List DTSNode) : String :=
  let hw_inputs := nodes.filter (fun n => strStartsWith n.compatible "lq,hw-")
  let fault_monitors := nodes.filter (fun n => n.compatible = "lq,fault-monitor")
  let isrDecls :=
    if hw_inputs.isEmpty then ""
    else
      "/* Hardware ISR handlers */\n" ++
        String.join (hw_inputs.map (fun hw =>
          if strHas hw.compatible "adc" then
            "void lq_adc_isr_" ++ hw.label ++ "(uint16_t value);\n"
          else if strHas hw.compatible "spi" then
            "void lq_spi_isr_" ++ hw.label ++ "(int32_t value);\n"
          else "")) ++
        "\n"
  let wakes := wakeFnNames fault_monitors
  let wakeDecls :=
    if fault_monitors.isEmpty then ""
    else if wakes.isEmpty then ""
    else
      "/* Fault monitor wake callbacks */\n" ++
        String.join (wakes.map (fun w =>
          "void " ++ w ++
            "(uint8_t monitor_id, int32_t input_value, enum lq_fault_level fault_level);\n")) ++
        "\n"
  "/*\n * AUTO-GENERATED FILE - DO NOT EDIT\n * Generated from devicetree by scripts/dts_gen.py\n */\n\n#ifndef LQ_GENERATED_H_\n#define LQ_GENERATED_H_\n\n#include \"lq_engine.h\"\n\n#ifdef __cplusplus\nextern \"C\" \x7b\n#endif\n\n/* Engine instance */\nextern struct lq_engine g_lq_engine;\n\n/* Initialization function */\nint lq_generated_init(void);\n\n/* Output event dispatcher */\nvoid lq_generated_dispatch_outputs(void);\n\n" ++
    isrDecls ++ wakeDecls ++
    "#ifdef __cplusplus\n\x7d\n#endif\n\n#endif /* LQ_GENERATED_H_ */\n"

/-! ## Platform-agnostic `main.c` (`generate_main`) -/

/-- Text of the generated `main.c`, a fixed template. -/
def mainContent : String :=
  "/*\n * AUTO-GENERATED FILE - DO NOT EDIT\n * Generated from devicetree by scripts/dts_gen.py\n * \n * Platform layer (lq_platform_*.c) handles:\n * - FreeRTOS: Creates task and starts scheduler\n * - Zephyr: Creates thread\n * - Native/Bare metal: Runs infinite loop\n */\n\n#include \"lq_engine.h\"\n#include \"lq_generated.h\"\n#include \"lq_platform.h\"\n#include <stdio.h>\n\nint main(void)\n\x7b\n    printf(\"Layered Queue Application\\n\");\n    printf(\"Signals: %u, Merges: %u, Cyclic: %u\\n\",\n           g_lq_engine.num_signals,\n           g_lq_engine.num_merges,\n           g_lq_engine.num_cyclic_outputs);\n    \n    /* Initialize engine and platform */\n    int ret = lq_generated_init();\n    if (ret != 0) \x7b\n        printf(\"ERROR: Initialization failed: %d\\n\", ret);\n        return ret;\n    \x7d\n    \n    printf(\"Initialization complete\\n\");\n    \n    /* Start engine - platform layer handles tasks/threads/loop */\n    return lq_engine_run();\n\x7d\n"

/-! ## Core initializer source (`generate_source`): text emission -/

/-- Voting-method mapping of the merge block; an unknown method falls
through Python's `dict.get` as `None` and is printed as such. -/
def voteMethodStr (v : PropValue) : String :=
  match v with
  | PropValue.pStr "median" => "LQ_VOTE_MEDIAN"
  | PropValue.pStr "average" => "LQ_VOTE_AVERAGE"
  | PropValue.pStr "min" => "LQ_VOTE_MIN"
  | PropValue.pStr "max" => "LQ_VOTE_MAX"
  | _ => "None"

/-- Output-type mapping of the cyclic-output block, with the same `None`
fallthrough. -/
def outputTypeStr (v : PropValue) : String :=
  match v with
  | PropValue.pStr "can" => "LQ_OUTPUT_CAN"
  | PropValue.pStr "j1939" => "LQ_OUTPUT_J1939"
  | PropValue.pStr "canopen" => "LQ_OUTPUT_CANOPEN"
  | PropValue.pStr "gpio" => "LQ_OUTPUT_GPIO"
  | PropValue.pStr "uart" => "LQ_OUTPUT_UART"
  | _ => "None"

/-- Python `str(node.signal_id)` where the attribute may be `None`. -/
def sigAttrStr (n : DTSNode) : String :=
  match n.signal_id with
  | some i => toString i
  | none => "None"

/-- One merge entry of the inline engine initializer. -/
def mergeEntry (i : Nat) (n : DTSNode) : String :=
  let ids := inputIdsOf n.properties
  "        [" ++ toString i ++ "] = \x7b\n" ++
    "            .output_signal = " ++ sigAttrStr n ++ ",\n" ++
    "            .input_signals = \x7b" ++ String.intercalate ", " (ids.map toString) ++ "\x7d,\n" ++
    "            .num_inputs = " ++ toString ids.length ++ ",\n" ++
    "            .voting_method = " ++
      voteMethodStr ((getProp n.properties "voting_method").getD (PropValue.pStr "median")) ++ ",\n" ++
    "            .tolerance = " ++ pvGetStr n.properties "tolerance" "0" ++ ",\n" ++
    "            .stale_us = " ++ pvGetStr n.properties "stale_us" "0" ++ ",\n" ++
    "            .enabled = true,\n" ++
    "        \x7d,\n"

/-- One fault-monitor entry of the inline engine initializer. -/
def faultEntry (i : Nat) (n : DTSNode) : String :=
  let check_staleness := (getProp n.properties "check_staleness").isSome
  let check_range := (getProp n.properties "check_range").isSome
  let check_status := (getProp n.properties "check_status").isSome
  let wake :=
    match getProp n.properties "wake_function" with
    | some v => if pvTruthy v then pvStr v else "NULL"
    | none => "NULL"
  "        [" ++ toString i ++ "] = \x7b\n" ++
    "            .input_signal = " ++ pvGetStr n.properties "input_signal_id" "0" ++ ",\n" ++
    "            .fault_output_signal = " ++ pvGetStr n.properties "fault_output_signal_id" "0" ++ ",\n" ++
    "            .check_staleness = " ++ (if check_staleness then "true" else "false") ++ ",\n" ++
    (if check_staleness then
      "            .stale_timeout_us = " ++ pvGetStr n.properties "stale_timeout_us" "1000000" ++ ",\n"
     else "            .stale_timeout_us = 0,\n") ++
    "            .check_range = " ++ (if check_range then "true" else "false") ++ ",\n" ++
    (if check_range then
      "            .min_value = " ++ pvGetStr n.properties "min_value" "0" ++ ",\n" ++
        "            .max_value = " ++ pvGetStr n.properties "max_value" "65535" ++ ",\n"
     else "            .min_value = 0,\n            .max_value = 0,\n") ++
    "            .check_status = " ++ (if check_status then "true" else "false") ++ ",\n" ++
    "            .fault_level = " ++ pvGetStr n.properties "fault_level" "1" ++ ",\n" ++
    "            .wake = " ++ wake ++ ",\n" ++
    "            .enabled = true,\n" ++
    "        \x7d,\n"

/-- One cyclic-output entry of the inline engine initializer. -/
def cyclicEntry (i : Nat) (n : DTSNode) : String :=
  "        [" ++ toString i ++ "] = \x7b\n" ++
    "            .type = " ++ outputTypeStr (outputTypeVal n) ++ ",\n" ++
    "            .target_id = " ++ pvGetStr n.properties "target_id" "0" ++ ",\n" ++
    "            .device_index = " ++ pvGetStr n.properties "device_index" "0" ++ ",\n" ++
    "            .source_signal = " ++ pvGetStr n.properties "source_signal_id" "0" ++ ",\n" ++
    "            .period_us = " ++ pvGetStr n.properties "period_us" "100000" ++ ",\n" ++
    "            .next_deadline = " ++ pvGetStr n.properties "deadline_offset_us" "0" ++ ",\n" ++
    "            .flags = 0,\n" ++
    "            .enabled = true,\n" ++
    "        \x7d,\n"

/-- ISR handler text for one hardware-input node. -/
def isrHandler (n : DTSNode) : String :=
  if n.compatible = "lq,hw-adc-input" then
    "/* ADC ISR for " ++ n.label ++ " */\nvoid lq_adc_isr_" ++ n.label ++
      "(uint16_t value) \x7b\n    lq_hw_push(" ++ pvGetStr n.properties "signal_id" "0" ++
      ", (uint32_t)value);\n\x7d\n\n"
  else if n.compatible = "lq,hw-spi-input" then
    "/* SPI ISR for " ++ n.label ++ " */\nvoid lq_spi_isr_" ++ n.label ++
      "(int32_t value) \x7b\n    lq_hw_push(" ++ pvGetStr n.properties "signal_id" "0" ++
      ", (uint32_t)value);\n\x7d\n\n"
  else ""

/-- Little-endian four-byte split of the event value, shared by several
dispatch cases. -/
def leSplitLines : String :=
  "                data[0] = (uint8_t)(evt->value & 0xFF);\n" ++
    "                data[1] = (uint8_t)((evt->value >> 8) & 0xFF);\n" ++
    "                data[2] = (uint8_t)((evt->value >> 16) & 0xFF);\n" ++
    "                data[3] = (uint8_t)((evt->value >> 24) & 0xFF);\n"

/-- Text of `lq_generated.c` together with the node list as mutated by
the categorization pass (the generalized-input normalization rewrites
node objects shared with the caller, which the later HIL pass observes). -/
def sourceContent (nodes : List DTSNode) : String × List DTSNode :=
  let cats := sourceCategorize nodes
  let cyc := cats.cyclic_outputs
  let anyCanLike := usedType cyc "j1939" || usedType cyc "canopen" || usedType cyc "can"
  let num_signals := sourceMaxSignalId cats + 1
  let includes :=
    "/*\n * AUTO-GENERATED FILE - DO NOT EDIT\n * Generated from devicetree by scripts/dts_gen.py\n */\n\n#include \"lq_generated.h\"\n#include \"lq_hw_input.h\"\n#include \"lq_common.h\"\n#include \"lq_event.h\"\n#include \"lq_hil.h\"\n" ++
    (if usedType cyc "j1939" then "#include \"lq_j1939.h\"\n" else "") ++
    (if usedType cyc "canopen" then "#include \"lq_canopen.h\"\n" else "") ++
    (if !cats.crosscheck_nodes.isEmpty then "#include \"lq_event_crosscheck.h\"\n" else "") ++
    (if anyCanLike then "#include \"lq_platform.h\"  /* For lq_can_send */\n" else "") ++
    (if usedType cyc "gpio" then "#include \"lq_platform.h\"  /* For lq_gpio_set */\n" else "") ++
    (if usedType cyc "uart" then "#include \"lq_platform.h\"  /* For lq_uart_send */\n" else "") ++
    (if usedType cyc "spi" then "#include \"lq_platform.h\"  /* For lq_spi_send */\n" else "") ++
    (if usedType cyc "i2c" then "#include \"lq_platform.h\"  /* For lq_i2c_write */\n" else "") ++
    (if usedType cyc "pwm" then "#include \"lq_platform.h\"  /* For lq_pwm_set */\n" else "") ++
    (if usedType cyc "dac" then "#include \"lq_platform.h\"  /* For lq_dac_write */\n" else "") ++
    (if usedType cyc "modbus" then "#include \"lq_platform.h\"  /* For lq_modbus_write */\n" else "") ++
    "#include <stdlib.h>\n#include <string.h>\n\n"
  let decls :=
    "/* Platform function declarations - implement these in your platform code\n * or link with lq_platform_stubs.c for default no-op implementations */\n" ++
    (if anyCanLike then
      "extern int lq_can_send(uint8_t device_index, uint32_t can_id, bool is_extended, const uint8_t *data, uint8_t len);\n"
     else "") ++
    (if usedType cyc "gpio" then "extern int lq_gpio_set(uint8_t pin, bool state);\n" else "") ++
    (if usedType cyc "uart" then "extern int lq_uart_send(const uint8_t *data, size_t len);\n" else "") ++
    (if usedType cyc "spi" then "extern int lq_spi_send(uint8_t device, const uint8_t *data, size_t len);\n" else "") ++
    (if usedType cyc "i2c" then "extern int lq_i2c_write(uint8_t addr, uint8_t reg, const uint8_t *data, size_t len);\n" else "") ++
    (if usedType cyc "pwm" then "extern int lq_pwm_set(uint8_t channel, uint32_t duty_cycle);\n" else "") ++
    (if usedType cyc "dac" then "extern int lq_dac_write(uint8_t channel, uint16_t value);\n" else "") ++
    (if usedType cyc "modbus" then "extern int lq_modbus_write(uint8_t slave_id, uint16_t reg, uint16_t value);\n" else "") ++
    "\n"
  let engine :=
    "/* Engine instance */\nstruct lq_engine g_lq_engine = \x7b\n" ++
    "    .num_signals = " ++ toString num_signals ++ ",\n" ++
    "    .num_merges = " ++ toString cats.merges.length ++ ",\n" ++
    "    .num_fault_monitors = " ++ toString cats.fault_monitors.length ++ ",\n" ++
    "    .num_cyclic_outputs = " ++ toString cyc.length ++ ",\n" ++
    (if cats.merges.isEmpty then ""
     else "    .merges = \x7b\n" ++
       String.join (cats.merges.enum.map (fun p => mergeEntry p.1 p.2)) ++ "    \x7d,\n") ++
    (if cats.fault_monitors.isEmpty then ""
     else "    .fault_monitors = \x7b\n" ++
       String.join (cats.fault_monitors.enum.map (fun p => faultEntry p.1 p.2)) ++ "    \x7d,\n") ++
    (if cyc.isEmpty then ""
     else "    .cyclic_outputs = \x7b\n" ++
       String.join (cyc.enum.map (fun p => cyclicEntry p.1 p.2)) ++ "    \x7d,\n") ++
    "\x7d;\n\n"
  let crossCtx :=
    if cats.crosscheck_nodes.isEmpty then ""
    else "/* Event crosscheck context (dual-channel safety) */\nstatic struct lq_crosscheck_ctx g_crosscheck_ctx;\n\n"
  let isrs := String.join (cats.hw_inputs.map isrHandler)
  let wakes := wakeFnNames cats.fault_monitors
  let wakeStubs :=
    if wakes.isEmpty then ""
    else
      "/* Fault monitor wake callbacks - weak stubs (user can override) */\n" ++
        String.join (wakes.map (fun w =>
          "__weak\nvoid " ++ w ++
            "(uint8_t monitor_id, int32_t input_value, enum lq_fault_level fault_level) \x7b\n    /* Default: no action. Override this function to implement safety response. */\n    (void)monitor_id;\n    (void)input_value;\n    (void)fault_level;\n\x7d\n\n"))
  let initFn :=
    "/* Initialization */\nint lq_generated_init(void) \x7b\n    /* Auto-detect HIL mode on native platform (if not already initialized) */\n    #ifdef LQ_PLATFORM_NATIVE\n    if (!lq_hil_is_active()) \x7b\n        lq_hil_init(LQ_HIL_MODE_DISABLED, getenv(\"LQ_HIL_MODE\"), 0);\n    \x7d\n    #endif\n    \n    /* Initialize engine */\n    int ret = lq_engine_init(&g_lq_engine);\n    if (ret != 0) return ret;\n    \n    /* Hardware input layer */\n    ret = lq_hw_input_init(64);\n    if (ret != 0) return ret;\n    \n" ++
    (match cats.crosscheck_nodes with
     | [] => ""
     | cc :: _ =>
       "    /* Initialize event crosscheck (dual-channel safety) */\n    ret = lq_crosscheck_init(&g_crosscheck_ctx, " ++
         pvGetStr cc.properties "uart_id" "1" ++ ", " ++
         pvGetStr cc.properties "timeout_ms" "50" ++ ", " ++
         pvGetStr cc.properties "fail_gpio" "25" ++ ");\n    if (ret != 0) return ret;\n    \n") ++
    "    /* Platform-specific peripheral init */\n    #ifdef LQ_PLATFORM_INIT\n    lq_platform_peripherals_init();\n    #endif\n    \n    return 0;\n\x7d\n\n"
  let dispatch :=
    "/* Output event dispatcher */\nvoid lq_generated_dispatch_outputs(void) \x7b\n" ++
    (if cats.crosscheck_nodes.isEmpty then ""
     else "    /* Send events to other MCU for dual-channel verification */\n    for (size_t i = 0; i < g_lq_engine.out_event_count; i++) \x7b\n        lq_crosscheck_send_event(&g_crosscheck_ctx, &g_lq_engine.out_events[i]);\n    \x7d\n    \n") ++
    "    /* Dispatch output events to appropriate protocol drivers/hardware */\n    for (size_t i = 0; i < g_lq_engine.out_event_count; i++) \x7b\n        struct lq_output_event *evt = &g_lq_engine.out_events[i];\n        \n        switch (evt->type) \x7b\n" ++
    (if usedType cyc "j1939" then
      "            case LQ_OUTPUT_J1939: \x7b\n                /* J1939 output: encode value and send via CAN */\n                uint8_t data[8] = \x7b0\x7d;\n" ++
        leSplitLines ++
        "                \n                /* Build CAN ID from PGN (target_id) */\n                uint32_t can_id = lq_j1939_build_id_from_pgn(evt->target_id, 6, 0);\n                lq_can_send(evt->device_index, can_id, true, data, 8);\n                break;\n            \x7d\n"
     else "") ++
    (if usedType cyc "canopen" then
      "            case LQ_OUTPUT_CANOPEN: \x7b\n                /* CANopen output: encode PDO and send */\n                uint8_t data[8] = \x7b0\x7d;\n" ++
        leSplitLines ++
        "                \n                /* target_id is COB-ID */\n                lq_can_send(evt->device_index, evt->target_id, false, data, 4);\n                break;\n            \x7d\n"
     else "") ++
    (if usedType cyc "spi" then
      "            case LQ_OUTPUT_SPI: \x7b\n                /* SPI output: target_id is device/CS, value is data */\n                uint8_t data[4];\n" ++
        leSplitLines ++
        "                lq_spi_send((uint8_t)evt->target_id, data, 4);\n                break;\n            \x7d\n"
     else "") ++
    (if usedType cyc "i2c" then
      "            case LQ_OUTPUT_I2C: \x7b\n                /* I2C output: target_id bits[15:8]=addr, bits[7:0]=register */\n                uint8_t addr = (uint8_t)((evt->target_id >> 8) & 0xFF);\n                uint8_t reg = (uint8_t)(evt->target_id & 0xFF);\n                uint8_t data[4];\n" ++
        leSplitLines ++
        "                lq_i2c_write(addr, reg, data, 4);\n                break;\n            \x7d\n"
     else "") ++
    (if usedType cyc "pwm" then
      "            case LQ_OUTPUT_PWM: \x7b\n                /* PWM output: target_id is channel, value is duty cycle */\n                lq_pwm_set((uint8_t)evt->target_id, (uint32_t)evt->value);\n                break;\n            \x7d\n"
     else "") ++
    (if usedType cyc "dac" then
      "            case LQ_OUTPUT_DAC: \x7b\n                /* DAC output: target_id is channel, value is analog level */\n                lq_dac_write((uint8_t)evt->target_id, (uint16_t)evt->value);\n                break;\n            \x7d\n"
     else "") ++
    (if usedType cyc "modbus" then
      "            case LQ_OUTPUT_MODBUS: \x7b\n                /* Modbus output: target_id bits[23:16]=slave, bits[15:0]=register */\n                uint8_t slave = (uint8_t)((evt->target_id >> 16) & 0xFF);\n                uint16_t reg = (uint16_t)(evt->target_id & 0xFFFF);\n                lq_modbus_write(slave, reg, (uint16_t)evt->value);\n                break;\n            \x7d\n" ++
        leSplitLines ++
        "                \n                /* target_id is COB-ID */\n                lq_can_send(evt->device_index, evt->target_id, false, data, 4);\n                break;\n            \x7d\n"
     else "") ++
    (if usedType cyc "can" then
      "            case LQ_OUTPUT_CAN: \x7b\n                /* Raw CAN output */\n                uint8_t data[8] = \x7b0\x7d;\n" ++
        leSplitLines ++
        "                \n                bool extended = (evt->flags & 1) != 0;\n                lq_can_send(evt->device_index, evt->target_id, extended, data, 8);\n                break;\n            \x7d\n"
     else "") ++
    (if usedType cyc "gpio" then
      "            case LQ_OUTPUT_GPIO: \x7b\n                /* GPIO output: target_id is pin number */\n                lq_gpio_set((uint8_t)evt->target_id, evt->value != 0);\n                break;\n            \x7d\n"
     else "") ++
    (if usedType cyc "uart" then
      "            case LQ_OUTPUT_UART: \x7b\n                /* UART output: send as ASCII string */\n                char buf[32];\n                int len = snprintf(buf, sizeof(buf), \"%d\\n\", evt->value);\n                lq_uart_send((uint8_t*)buf, len);\n                break;\n            \x7d\n"
     else "") ++
    "            default:\n                /* Unknown output type - ignore */\n                break;\n        \x7d\n    \x7d\n\x7d\n"
  (includes ++ decls ++ engine ++ crossCtx ++ isrs ++ wakeStubs ++ initFn ++ dispatch,
   cats.mutatedNodes)

/-! ## HIL test topology (`generate_hil_tests_impl`) -/

/-- One injected-ADC step of the nominal test. -/
def hilAdcStep (step : Nat) (n : DTSNode) : String :=
  "            step@" ++ toString step ++ " \x7b\n                action = \"inject-adc\";\n                channel = <" ++
    pvGetStr n.properties "channel" "0" ++ ">;\n                value = <" ++
    pvGetStr n.properties "nominal-value" "2500" ++ ">;\n            \x7d;\n"

/-- One injected-CAN step of the nominal test. -/
def hilCanStep (step : Nat) (n : DTSNode) : String :=
  "            step@" ++ toString step ++ " \x7b\n                action = \"inject-can-pgn\";\n                pgn = <" ++
    pvGetStr n.properties "pgn" "61444" ++
    ">;\n                priority = <3>;\n                source-addr = <0x00>;\n                data = [0xE8 0x5E 0x00 0x00 0x00 0x00 0x00 0x00];\n            \x7d;\n"

/-- Text of the derived test topology `lq_generated_test.dts`
(`generate_hil_tests_impl`), computed from the node list the source
generator left behind.  Category membership uses the script's substring
checks. -/
def hilTestsContent (nodes : List DTSNode) : String :=
  let adc_sources := nodes.filter (fun n => strHas n.compatible "adc")
  let can_sources := nodes.filter (fun n => strHas n.compatible "can")
  let merge_nodes := nodes.filter (fun n => strHas n.compatible "merge" || strHas n.compatible "voter")
  let fault_monitors := nodes.filter (fun n => strHas n.compatible "fault-monitor")
  let output_nodes := nodes.filter (fun n =>
    strHas n.compatible "cyclic-output" || strHas n.compatible "can-output")
  let outTy : DTSNode → String := fun n =>
    match outputTypeVal n with
    | PropValue.pStr s => s
    | v => pvStr v
  let test1 :=
    "    hil-test-all-inputs-nominal \x7b\n        compatible = \"lq,hil-test\";\n        description = \"All inputs at nominal values\";\n        timeout-ms = <2000>;\n        \n        sequence \x7b\n" ++
    String.join (adc_sources.enum.map (fun p => hilAdcStep p.1 p.2)) ++
    String.join (can_sources.enum.map (fun p => hilCanStep (adc_sources.length + p.1) p.2)) ++
    (match output_nodes with
     | [] => ""
     | output :: _ =>
       let step := adc_sources.length + can_sources.length
       let ty := outTy output
       if ty = "gpio" then
         "            step@" ++ toString step ++ " \x7b\n                action = \"wait-gpio-high\";\n                pin = <" ++
           pvGetStr output.properties "target_id" "0" ++ ">;\n                timeout-ms = <" ++
           pvGetStr output.properties "expected_response_ms" "200" ++ ">;\n            \x7d;\n"
       else if ty = "can" || ty = "canopen" then
         if ty = "canopen" then
           "            step@" ++ toString step ++ " \x7b\n                action = \"expect-can\";\n                can-id = <" ++
             pvGetStr output.properties "cob_id" "384" ++ ">;\n                timeout-ms = <" ++
             pvGetStr output.properties "expected_response_ms" "1500" ++ ">;\n            \x7d;\n"
         else
           "            step@" ++ toString step ++ " \x7b\n                action = \"expect-can\";\n                pgn = <" ++
             pvGetStr output.properties "pgn" "61444" ++ ">;\n                timeout-ms = <" ++
             pvGetStr output.properties "expected_response_ms" "200" ++ ">;\n            \x7d;\n"
       else if ty = "pwm" then
         "            step@" ++ toString step ++ " \x7b\n                action = \"measure-pwm\";\n                channel = <" ++
           pvGetStr output.properties "target_id" "0" ++ ">;\n                timeout-ms = <200>;\n            \x7d;\n"
       else "") ++
    "        \x7d;\n    \x7d;\n\n"
  let test2 :=
    if merge_nodes.isEmpty then ""
    else
      "    hil-test-voting-merge \x7b\n        compatible = \"lq,hil-test\";\n        description = \"Test voting/merge logic\";\n        timeout-ms = <2000>;\n        \n        sequence \x7b\n" ++
      String.join ((adc_sources.take 3).enum.map (fun p =>
        "            step@" ++ toString p.1 ++ " \x7b\n                action = \"inject-adc\";\n                channel = <" ++
          pvGetStr p.2.properties "channel" (toString p.1) ++ ">;\n                value = <" ++
          toString (3000 + p.1 * 5) ++ ">;\n            \x7d;\n")) ++
      (match output_nodes with
       | [] => ""
       | output :: _ =>
         let step := (adc_sources.take 3).length
         let ty := outTy output
         if ty = "gpio" then
           "            step@" ++ toString step ++ " \x7b\n                action = \"wait-gpio-high\";\n                pin = <" ++
             pvGetStr output.properties "target_id" "0" ++ ">;\n                timeout-ms = <500>;\n            \x7d;\n"
         else if ty = "can" || ty = "canopen" then
           if ty = "canopen" then
             "            step@" ++ toString step ++ " \x7b\n                action = \"expect-can\";\n                can-id = <" ++
               pvGetStr output.properties "cob_id" "384" ++ ">;\n                timeout-ms = <1500>;\n            \x7d;\n"
           else
             "            step@" ++ toString step ++ " \x7b\n                action = \"expect-can\";\n                pgn = <" ++
               pvGetStr output.properties "pgn" "61444" ++ ">;\n                timeout-ms = <200>;\n            \x7d;\n"
         else "") ++
      "        \x7d;\n    \x7d;\n\n"
  let test34 :=
    match fault_monitors, adc_sources, output_nodes with
    | fault :: _, adc :: _, output :: _ =>
      let channel := pvGetStr adc.properties "channel" "0"
      let ty := outTy output
      let max_value := getIntPropD fault.properties "max_value" 5000
      let fault_timeout := pvGetStr fault.properties "expected_response_ms" "50"
      let fault_test_value := max_value + 1000
      let min_value := getIntPropD fault.properties "min_value" 0
      let normal_value := Int.fdiv (min_value + max_value) 2
      "    hil-test-fault-trigger \x7b\n        compatible = \"lq,hil-test\";\n        description = \"Test fault detection triggers output\";\n        timeout-ms = <2000>;\n        \n        sequence \x7b\n            step@0 \x7b\n                action = \"inject-adc\";\n                channel = <" ++
        channel ++ ">;\n                value = <" ++ toString fault_test_value ++
        ">;  /* Above max threshold */\n            \x7d;\n" ++
        (if ty = "gpio" then
          "            step@1 \x7b\n                action = \"wait-gpio-high\";\n                pin = <" ++
            pvGetStr output.properties "target_id" "0" ++ ">;\n                timeout-ms = <" ++
            fault_timeout ++ ">;\n            \x7d;\n"
         else if ty = "can" || ty = "canopen" then
          "            step@1 \x7b\n                action = \"expect-can\";\n                pgn = <65226>;  /* DM1 diagnostic message */\n                timeout-ms = <" ++
            fault_timeout ++ ">;\n            \x7d;\n"
         else "") ++
        "        \x7d;\n    \x7d;\n\n" ++
        "    hil-test-normal-operation \x7b\n        compatible = \"lq,hil-test\";\n        description = \"Test normal operation without faults\";\n        timeout-ms = <2000>;\n        \n        sequence \x7b\n            step@0 \x7b\n                action = \"inject-adc\";\n                channel = <" ++
        channel ++ ">;\n                value = <" ++ toString normal_value ++
        ">;  /* Within normal range */\n            \x7d;\n" ++
        (if ty = "gpio" then
          "            step@1 \x7b\n                action = \"wait-gpio-low\";\n                pin = <" ++
            pvGetStr output.properties "target_id" "0" ++ ">;\n                timeout-ms = <" ++
            pvGetStr output.properties "expected_response_ms" "200" ++ ">;\n            \x7d;\n"
         else if ty = "can" || ty = "canopen" then
          let timeout := pvGetStr output.properties "expected_response_ms"
            (if ty = "canopen" then "1500" else "200")
          if ty = "canopen" then
            "            step@1 \x7b\n                action = \"expect-can\";\n                can-id = <" ++
              pvGetStr output.properties "cob_id" "384" ++ ">;\n                timeout-ms = <" ++
              timeout ++ ">;\n            \x7d;\n"
          else
            "            step@1 \x7b\n                action = \"expect-can\";\n                pgn = <" ++
              pvGetStr output.properties "pgn" "61444" ++ ">;\n                timeout-ms = <" ++
              timeout ++ ">;\n            \x7d;\n"
         else "") ++
        "        \x7d;\n    \x7d;\n\n"
    | _, _, _ => ""
  let test5 :=
    if !adc_sources.isEmpty && !output_nodes.isEmpty then
      "    hil-test-latency \x7b\n        compatible = \"lq,hil-test\";\n        description = \"End-to-end latency\";\n        timeout-ms = <1000>;\n        \n        sequence \x7b\n            step@0 \x7b\n                action = \"measure-latency\";\n                max-latency-us = <50000>;  /* 50ms */\n            \x7d;\n        \x7d;\n    \x7d;\n\n"
    else ""
  "/*\n * AUTO-GENERATED HIL Tests\n * Generated from system DTS\n * DO NOT EDIT MANUALLY\n */\n\n/ \x7b\n" ++
    test1 ++ test2 ++ test34 ++ test5 ++ "\x7d;\n"

/-! ## Platform backend stage and the compiler driver -/

/-- The closed set of backend names accepted by `get_platform_adaptor`
(`platform_adaptors.py`), in the dictionary's insertion order. -/
def supportedAdaptors : List String :=
  ["stm32", "samd", "esp32", "nrf52", "avr"]

/-- The diagnostic `generate_platform_hw` prints when
`get_platform_adaptor` raises for an unknown name. -/
def unknownPlatformMsg (p : String) : String :=
  "Error: Unknown platform: " ++ p ++
    ". Supported: [\x27stm32\x27, \x27samd\x27, \x27esp32\x27, \x27nrf52\x27, \x27avr\x27]"

/-- Backend-generation stage (`generate_platform_hw`): an unknown
platform name prints the error and returns with no file written; a known
name writes `lq_platform_hw.c`.  The backend file is tracked by name
only: no claim depends on its adaptor-rendered contents. -/
def genPlatformHw (p : String) : Option String × List String :=
  if supportedAdaptors.contains (asciiLower p) then
    (some "lq_platform_hw.c", ["Generated lq_platform_hw.c"])
  else
    (none, [unknownPlatformMsg p])

/-- Outcome of one compiler invocation: process exit code, the core
artifact files written to the output directory (name and contents, in
write order), the backend file if any, and the printed diagnostics the
claims refer to. -/
structure CompileOut where
  exitCode : Nat
  files : List (String × String)
  backendFile : Option String
  messages : List String

/-- The `main` pipeline of `scripts/dts_gen.py` after parsing: resolve,
analyze, and write the five core artifacts; then run the backend stage
when a platform was requested.  There is no failure path anywhere in the
pipeline, so the exit code is always 0. -/
def runCompiler (nodes : List DTSNode) (platform : Option String) : CompileOut :=
  let resolved := resolve_phandles_and_assign_ids nodes
  let counts := calculate_resource_counts resolved
  let cfg := configHeaderContent counts
  let hdr := headerContent resolved
  let srcAndNodes := sourceContent resolved
  let hil := hilTestsContent srcAndNodes.2
  let pl := match platform with
    | none => (Option.none, ([] : List String))
    | some p => genPlatformHw p
  { exitCode := 0,
    files := [("lq_config.h", cfg), ("lq_generated.h", hdr),
              ("lq_generated.c", srcAndNodes.1), ("lq_generated_test.dts", hil),
              ("main.c", mainContent)],
    backendFile := pl.1,
    messages := pl.2 }

/-- Full compile of a description text without a platform request. -/
def compileDts (src : String) : CompileOut :=
  runCompiler (simple_dts_parse src) none

/-! ## Object-dictionary importer (`canopen_eds_parser.py` and the
`expand_eds_references` splice of `scripts/dts_gen.py`) -/

/-- One decoded PDO-mapping entry as `parse_eds` stores it
(object index, sub-index, mapped bit length). -/
structure RawMapping where
  index : Nat
  subindex : Nat
  length : Nat
  deriving DecidableEq, Repr

/-- A parsed object-dictionary device as far as `parse_eds_file` reads
it: identity fields, the object index (for name lookup, last write wins
as in a Python dict), and the four transmit and four receive mapping
lists (`tpdo_mappings` / `rpdo_mappings`, always exactly four slots, each
at most eight entries after `parse_eds`). -/
structure EdsDevice where
  device_name : String
  vendor_id : Nat
  product_code : Nat
  objects : List (Nat × String)
  t0 : List RawMapping
  t1 : List RawMapping
  t2 : List RawMapping
  t3 : List RawMapping
  r0 : List RawMapping
  r1 : List RawMapping
  r2 : List RawMapping
  r3 : List RawMapping
  deriving Repr

/-- Dict lookup in the object index (later entries shadow earlier ones). -/
def lookupObjName (objs : List (Nat × String)) (idx : Nat) : Option String :=
  match objs with
  | [] => none
  | (i, nm) :: rest =>
    match lookupObjName rest idx with
    | some r => some r
    | none => if i = idx then some nm else none

/-- One mapping dict of the `parse_eds_file` output, with its synthetic
signal identity. -/
structure MappedEntry where
  index : Nat
  subindex : Nat
  length : Nat
  signal_id : Nat
  name : String
  deriving DecidableEq, Repr

/-- One PDO dict of the `parse_eds_file` output. -/
structure EdsPdo where
  cob_id : Nat
  mappings : List MappedEntry
  deriving DecidableEq, Repr

/-- Mapping entries of one populated PDO slot: entry `j` of slot `k`
receives signal identity `base + 32 * k + j` (base 100 for transmit, 0
for receive), and its name from the object index with the positional
fallback. -/
def pdoEntries (objs : List (Nat × String)) (tag : String) (base k j : Nat) :
    List RawMapping → List MappedEntry
  | [] => []
  | m :: rest =>
    { index := m.index, subindex := m.subindex, length := m.length,
      signal_id := base + k * 32 + j,
      name := (lookupObjName objs m.index).getD
        (tag ++ toString (k + 1) ++ "_Signal" ++ toString j) }
      :: pdoEntries objs tag base k (j + 1) rest

/-- The result dict of `parse_eds_file`: device identity, the default
node id 5, and the compacted lists of populated transmit and receive
PDOs with their computed communication identifiers and synthetic signal
identities. -/
structure EdsData where
  device_name : String
  node_id : Nat
  vendor_id : Nat
  product_code : Nat
  tpdos : List EdsPdo
  rpdos : List EdsPdo
  deriving DecidableEq, Repr

/-- The four transmit slots in order, as `enumerate(device.tpdo_mappings)`
iterates them. -/
def tpdoSlots (d : EdsDevice) : List (Nat × List RawMapping) :=
  [(0, d.t0), (1, d.t1), (2, d.t2), (3, d.t3)]

/-- The four receive slots in order. -/
def rpdoSlots (d : EdsDevice) : List (Nat × List RawMapping) :=
  [(0, d.r0), (1, d.r1), (2, d.r2), (3, d.r3)]

/-- Helper for `parse_eds_file`: keep only populated slots, in slot
order, building each PDO dict with the given COB-ID base and signal
base. -/
def buildPdos (objs : List (Nat × String)) (tag : String) (cobBase sigBase nodeId : Nat)
    (slots : List (Nat × List RawMapping)) : List EdsPdo :=
  slots.filterMap (fun p =>
    if p.2.isEmpty then none
    else some { cob_id := cobBase + p.1 * 0x100 + nodeId,
                mappings := pdoEntries objs tag sigBase p.1 0 p.2 })

/-- The helper `parse_eds_file` of `canopen_eds_parser.py`: transmit
identifiers `0x180 + 0x100*slot + 5`, receive identifiers
`0x200 + 0x100*slot + 5` (node id defaults to 5), transmit signal
identities `100 + 32*slot + entry`, receive signal identities
`32*slot + entry`. -/
def parse_eds_file (d : EdsDevice) : EdsData :=
  { device_name := d.device_name, node_id := 5,
    vendor_id := d.vendor_id, product_code := d.product_code,
    tpdos := buildPdos d.objects "TPDO" 0x180 100 5 (tpdoSlots d),
    rpdos := buildPdos d.objects "RPDO" 0x200 0 5 (rpdoSlots d) }

/-- All receive signal identities of an imported device, in order. -/
def pdoSignalIds (pdos : List EdsPdo) : List Nat :=
  pdos.flatMap (fun p => p.mappings.map (fun m => m.signal_id))

/-- COB-ID rewrite applied to one PDO during the node-id override. -/
def pdoUpdate (base nodeId idx : Nat) (p : EdsPdo) : EdsPdo :=
  { p with cob_id := base + 0x100 * idx + nodeId }

/-- Python `eds_data['tpdos'].index(pdo)`: position of the first equal
element. -/
def pdoIndex (lst : List EdsPdo) (p : EdsPdo) : Nat :=
  lst.findIdx (fun q => q == p)

/-- The in-place COB-ID recomputation loop of `expand_eds_references`
(node-id override): iterate the list positions in order; at each
position the slot used in the formula is `list.index(pdo)` evaluated on
the list as mutated so far. -/
def overrideGo (base nodeId : Nat) : List EdsPdo → Nat → Nat → List EdsPdo
  | lst, _, 0 => lst
  | lst, i, fuel + 1 =>
    match lst.get? i with
    | none => lst
    | some p =>
      overrideGo base nodeId (lst.set i (pdoUpdate base nodeId (pdoIndex lst p) p)) (i + 1) fuel

/-- COB-ID recomputation for one PDO direction. -/
def overridePdoCobs (base nodeId : Nat) (lst : List EdsPdo) : List EdsPdo :=
  overrideGo base nodeId lst 0 lst.length

/-- The node-id override step of `expand_eds_references` in
`scripts/dts_gen.py`: set the node id and recompute every transmit and
receive communication identifier. -/
def applyNodeIdOverride (d : EdsData) (nodeId : Nat) : EdsData :=
  { d with node_id := nodeId,
           tpdos := overridePdoCobs 0x180 nodeId d.tpdos,
           rpdos := overridePdoCobs 0x200 nodeId d.rpdos }

/-! ## HIL test harness (semantic model of the program emitted by
`generate_test_runner` in `scripts/hil_test_gen.py`) -/

/-- One generated test-case function: every emitted step assertion does
`return false` on failure, so the case runs its steps in order and stops
at the first failing one; a case with no failing step returns `true`.
Step outcomes are abstracted as booleans supplied by the environment. -/
def runCase : List Bool → Bool
  | [] => true
  | s :: rest => if s then runCase rest else false

/-- Outcome of one harness run: per-case results in execution order and
the `tests_run` / `tests_passed` / `tests_failed` counters maintained by
`tap_result`, plus the process exit code. -/
structure HarnessOut where
  results : List Bool
  tests_run : Nat
  tests_passed : Nat
  tests_failed : Nat
  exitCode : Nat
  deriving DecidableEq, Repr

/-- One `tap_result` call: increment `tests_run` and the matching
pass/fail counter. -/
def tapStep (st : Nat × Nat × Nat) (r : Bool) : Nat × Nat × Nat :=
  (st.1 + 1, (if r then st.2.1 + 1 else st.2.1), (if r then st.2.2 else st.2.2 + 1))

/-- The generated `main`: call every test function in order (each via
`tap_result`, so a failed case never prevents later ones from running),
report the tally, and exit `tests_failed > 0 ? 1 : 0`. -/
def harnessRun (cases : List (List Bool)) : HarnessOut :=
  let results := cases.map runCase
  let tally := results.foldl tapStep (0, 0, 0)
  { results := results, tests_run := tally.1, tests_passed := tally.2.1,
    tests_failed := tally.2.2,
    exitCode := if tally.2.2 > 0 then 1 else 0 }

/-! ## Specification-level notions used by the claim statements -/

/-- A node carrying none of the three explicit identity properties the
analyzer reads (`signal_id`, `output_signal_id`,
`fault_output_signal_id`). -/
def threeKeysAbsent (n : DTSNode) : Prop :=
  getProp n.properties "signal_id" = none ∧
    getProp n.properties "output_signal_id" = none ∧
    getProp n.properties "fault_output_signal_id" = none

/-- Signal identities attached to the nodes, in declaration order. -/
def assignedIds (nodes : List DTSNode) : List Int :=
  nodes.filterMap DTSNode.signal_id

instance : DecidablePred threeKeysAbsent := fun n => by
  unfold threeKeysAbsent
  infer_instance

/-- Maximum assigned identity, with floor 0 exactly as the analyzer's
running maximum starts at 0. -/
def maxAssignedId (nodes : List DTSNode) : Int :=
  nodes.foldl
    (fun a n =>
      match n.signal_id with
      | some v => max a v
      | none => a)
    0

/-- The consecutive identities `c, c+1, ..., c+k-1`. -/
def intRange (c : Int) : Nat → List Int
  | 0 => []
  | k + 1 => c :: intRange (c + 1) k

/-- A node whose contribution to the analyzer's running maximum is
exactly its attached identity: the explicit identity properties it
carries (if any) agree with the attribute, so `maxSigStep` reduces to the
attribute fold.  This is the shape the resolver leaves behind on
collections with no explicit identity properties. -/
def attrDominates (n : DTSNode) : Prop :=
  ∀ acc : Int, maxSigStep acc n = maxOpt acc n.signal_id

/-- A node the resolver gives an identity to (hardware inputs, transform
types, fault monitors). -/
def isProducer (n : DTSNode) : Bool :=
  isAutoSignal n.compatible || n.compatible == "lq,fault-monitor"

/-- Number of signal-producing nodes in declaration order. -/
def producerCount (nodes : List DTSNode) : Nat :=
  nodes.countP isProducer

/-- Input-list lengths of the merge blocks, in declaration order. -/
def mergeFanIns (nodes : List DTSNode) : List Nat :=
  (nodes.filter predMerge).map (fun n => mergeInputLen n.properties)

/-! ## Concrete inputs used by the claim theorems -/

/-- A collection whose only node references the undeclared label
`ghost` (spec scenario C). -/
def ghostNodes : List DTSNode :=
  [{ label := "out1", compatible := "lq,cyclic-output",
     properties := [("source", PropValue.pStr "ghost")] }]

/-- Two hardware inputs: the first auto-assigned, the second carrying an
explicit `signal-id = <0>` that collides with it. -/
def dupIdNodes : List DTSNode :=
  [{ label := "n1", compatible := "lq,hw-adc-input" },
   { label := "n2", compatible := "lq,hw-adc-input",
     properties := [("signal_id", PropValue.pInt 0)] }]

/-- One plain hardware input (witness input for the amended C2). -/
def oneHwNode : List DTSNode :=
  [{ label := "s1", compatible := "lq,hw-adc-input" }]

/-- Scenario-A-like description used as the determinism witness input. -/
def scnDts : String :=
  "s1: adc@0 \x7b compatible = \"lq,hw-adc-input\"; \x7d; o1: out@1 \x7b compatible = \"lq,cyclic-output\"; source = <&s1>; period-us = <100000>; \x7d;"

/-- One generic `lq,input` node bound to a CAN device, which the source
generator normalizes into `lq,hw-can-input` after the analyzer has
already run. -/
def genericInputNodes : List DTSNode :=
  [{ label := "i1", compatible := "lq,input",
     properties := [("device", PropValue.pStr "can0")] }]

/-- A status-word-style raw mapping entry. -/
def mStatus : RawMapping := { index := 0x6040, subindex := 0, length := 16 }

/-- Device whose receive slot 3 carries five mapping entries while
transmit slot 0 carries one: receive identities then reach 100. -/
def devRxOverlap : EdsDevice :=
  { device_name := "dev", vendor_id := 0, product_code := 0, objects := [],
    t0 := [mStatus], t1 := [], t2 := [], t3 := [],
    r0 := [], r1 := [], r2 := [], r3 := [mStatus, mStatus, mStatus, mStatus, mStatus] }

/-- Small device with receive slot 0 and transmit slot 0 populated
(witness input for the amended C5). -/
def devDisjoint : EdsDevice :=
  { device_name := "dev", vendor_id := 0, product_code := 0, objects := [],
    t0 := [mStatus], t1 := [], t2 := [], t3 := [],
    r0 := [mStatus, mStatus], r1 := [], r2 := [], r3 := [] }

/-- Device whose only populated transmit slot is slot 1. -/
def devSlot1 : EdsDevice :=
  { device_name := "dev", vendor_id := 0, product_code := 0, objects := [],
    t0 := [], t1 := [mStatus], t2 := [], t3 := [],
    r0 := [], r1 := [], r2 := [], r3 := [] }

/-- Spec scenario D: one transmit PDO (slot 0) with two mapped objects. -/
def devScenarioD : EdsDevice :=
  { device_name := "dev", vendor_id := 0, product_code := 0,
    objects := [(0x6041, "Status word"), (0x606C, "Velocity actual")],
    t0 := [{ index := 0x6041, subindex := 0, length := 16 },
           { index := 0x606C, subindex := 0, length := 32 }],
    t1 := [], t2 := [], t3 := [],
    r0 := [], r1 := [], r2 := [], r3 := [] }

/-- A well-formed node followed by a node whose brace block is never
closed (malformed nesting). -/
def brokenDts : String :=
  "s1: adc@0 \x7b compatible = \"lq,hw-adc-input\"; \x7d; b2: broken \x7b compatible = \"x\";"

/-- The same two nodes, both well formed. -/
def goodDts : String :=
  "s1: adc@0 \x7b compatible = \"lq,hw-adc-input\"; \x7d; b2: broken \x7b compatible = \"x\"; \x7d;"

/-- The node the parser extracts from the well-formed prefix. -/
def s1Node : DTSNode :=
  { label := "s1", compatible := "lq,hw-adc-input", address := some "0",
    properties := [("compatible", PropValue.pStr "lq,hw-adc-input")] }

/-- The second node of the well-formed variant. -/
def b2Node : DTSNode :=
  { label := "b2", compatible := "x", address := none,
    properties := [("compatible", PropValue.pStr "x")] }

/-! ## Property-bag lemmas -/

theorem getProp_setProp_self (ps : Props) (k : String) (v : PropValue) :
    getProp (setProp ps k v) k = some v := by
  induction ps with
  | nil => simp [setProp, getProp]
  | cons hd t ih =>
    obtain ⟨k', v'⟩ := hd
    by_cases hk : k' = k
    · simp [setProp, hk, getProp]
    · simp [setProp, hk, getProp, ih]

theorem getProp_setProp_ne (ps : Props) (k k' : String) (v : PropValue) (h : k' ≠ k) :
    getProp (setProp ps k v) k' = getProp ps k' := by
  induction ps with
  | nil =>
    simp only [setProp, getProp]
    rw [if_neg fun hh => h hh.symm]
  | cons hd t ih =>
    obtain ⟨a, b⟩ := hd
    by_cases ha : a = k
    · subst ha
      simp only [setProp, if_pos rfl, getProp]
      rw [if_neg fun hh => h hh.symm, if_neg fun hh => h hh.symm]
    · simp [setProp, ha, getProp, ih]

theorem getIntProp_congr (ps ps' : Props) (k : String)
    (h : getProp ps k = getProp ps' k) : getIntProp ps k = getIntProp ps' k := by
  unfold getIntProp
  rw [h]

/-! ## Resolver reference blocks leave unrelated keys untouched -/

theorem getProp_resolveRef_ne (all : List DTSNode) (ps : Props) (key dest k : String)
    (h : k ≠ dest) : getProp (resolveRef all ps key dest) k = getProp ps k := by
  unfold resolveRef
  repeat' split
  all_goals first
    | rfl
    | exact getProp_setProp_ne _ _ _ _ h

theorem getProp_resolveSingle_ne (all : List DTSNode) (ps : Props) (uni legacy dest k : String)
    (h : k ≠ dest) : getProp (resolveSingle all ps uni legacy dest) k = getProp ps k := by
  unfold resolveSingle
  repeat' split
  all_goals first
    | rfl
    | exact getProp_resolveRef_ne _ _ _ _ _ h

theorem getProp_resolveMulti_ne (all : List DTSNode) (ps : Props) (uni legacy k : String)
    (h : k ≠ "input_signal_ids") :
    getProp (resolveMulti all ps uni legacy) k = getProp ps k := by
  unfold resolveMulti
  repeat' split
  all_goals first
    | rfl
    | exact getProp_setProp_ne _ _ _ _ h

theorem resolveNodeRefs_signal_id (all : List DTSNode) (n : DTSNode) :
    (resolveNodeRefs all n).signal_id = n.signal_id := rfl

theorem getProp_resolveNodeRefs (all : List DTSNode) (n : DTSNode) (k : String)
    (h1 : k ≠ "source_signal") (h2 : k ≠ "input_signal_ids")
    (h3 : k ≠ "input_signal") (h4 : k ≠ "output_signal") :
    getProp (resolveNodeRefs all n).properties k = getProp n.properties k := by
  show getProp
      (resolveSingle all
        (resolveSingle all
          (resolveMulti all
            (resolveSingle all n.properties "source" "source_signal" "source_signal")
            "sources" "input_signal_ids")
          "input" "input_signal" "input_signal")
        "output" "output_signal" "output_signal") k = getProp n.properties k
  rw [getProp_resolveSingle_ne _ _ _ _ _ _ h4, getProp_resolveSingle_ne _ _ _ _ _ _ h3,
    getProp_resolveMulti_ne _ _ _ _ _ h2, getProp_resolveSingle_ne _ _ _ _ _ _ h1]

theorem maxSigStep_resolveNodeRefs (all : List DTSNode) (acc : Int) (n : DTSNode) :
    maxSigStep acc (resolveNodeRefs all n) = maxSigStep acc n := by
  unfold maxSigStep
  rw [resolveNodeRefs_signal_id,
    getIntProp_congr _ _ _ (getProp_resolveNodeRefs all n "signal_id"
      (by decide) (by decide) (by decide) (by decide)),
    getIntProp_congr _ _ _ (getProp_resolveNodeRefs all n "output_signal_id"
      (by decide) (by decide) (by decide) (by decide)),
    getIntProp_congr _ _ _ (getProp_resolveNodeRefs all n "fault_output_signal_id"
      (by decide) (by decide) (by decide) (by decide))]

/-! ## Minimum signal count (claim C10) -/

theorem maxOpt_le (acc : Int) (o : Option Int) : acc ≤ maxOpt acc o := by
  cases o with
  | none => exact le_refl acc
  | some v => exact le_max_left acc v

theorem maxSigStep_le (acc : Int) (n : DTSNode) : acc ≤ maxSigStep acc n := by
  unfold maxSigStep
  exact le_trans (le_trans (le_trans (maxOpt_le _ _) (maxOpt_le _ _)) (maxOpt_le _ _))
    (maxOpt_le _ _)

theorem foldl_maxSigStep_ge : ∀ (l : List DTSNode) (a : Int), a ≤ l.foldl maxSigStep a := by
  intro l
  induction l with
  | nil => intro a; exact le_refl a
  | cons n t ih =>
    intro a
    exact le_trans (maxSigStep_le a n) (ih (maxSigStep a n))

theorem num_signals_eq_fold (nodes : List DTSNode) :
    (calculate_resource_counts nodes).num_signals = nodes.foldl maxSigStep 0 + 1 := rfl

/-- C10: for every node collection the analyzer reports a total signal
count of at least 1, and the empty collection yields exactly 1, so the
resource-bounds header always sizes the signal array with at least one
entry. -/
theorem c10_min_signal_count :
    (∀ nodes : List DTSNode, 1 ≤ (calculate_resource_counts nodes).num_signals) ∧
    (calculate_resource_counts []).num_signals = 1 := by
  constructor
  · intro nodes
    rw [num_signals_eq_fold]
    have h := foldl_maxSigStep_ge nodes 0
    omega
  · rfl

/-! ## HIL harness semantics (claim C9) -/

theorem runCase_append_false (pre post : List Bool) :
    runCase (pre ++ false :: post) = false := by
  induction pre with
  | nil => rfl
  | cons s t ih =>
    cases s with
    | true => simpa [runCase] using ih
    | false => rfl

theorem countP_bool_split (l : List Bool) :
    l.countP id + l.countP (fun r => !r) = l.length := by
  induction l with
  | nil => rfl
  | cons hd tl ih =>
    cases hd <;> simp [List.countP_cons, ← ih] <;> omega

theorem tapStep_fold : ∀ (l : List Bool) (a b c : Nat),
    l.foldl tapStep (a, b, c) =
      (a + l.length, b + l.countP id, c + l.countP (fun r => !r)) := by
  intro l
  induction l with
  | nil => intro a b c; simp
  | cons hd tl ih =>
    intro a b c
    cases hd <;>
      simp [tapStep, List.countP_cons, ih, Nat.add_assoc, Nat.add_comm, Nat.add_left_comm]

/-- C9: the generated harness isolates failures per test case — a failing
step aborts only its own case, every case is still executed with its own
independent result, the tally accounts for every case, and the exit code
is nonzero exactly when at least one case failed. -/
theorem c9_harness_isolation (cs : List (List Bool)) :
    (harnessRun cs).results.length = cs.length ∧
    (∀ i : Nat, (harnessRun cs).results.get? i = (cs.get? i).map runCase) ∧
    (harnessRun cs).tests_run = cs.length ∧
    (harnessRun cs).tests_passed + (harnessRun cs).tests_failed = cs.length ∧
    ((harnessRun cs).exitCode ≠ 0 ↔ ∃ c ∈ cs, runCase c = false) ∧
    (∀ pre post : List Bool, runCase (pre ++ false :: post) = false) := by
  refine ⟨by simp [harnessRun], ?_, ?_, ?_, ?_, runCase_append_false⟩
  · intro i
    simp [harnessRun]
  · show ((cs.map runCase).foldl tapStep (0, 0, 0)).1 = cs.length
    rw [tapStep_fold]
    simp
  · show ((cs.map runCase).foldl tapStep (0, 0, 0)).2.1 +
        ((cs.map runCase).foldl tapStep (0, 0, 0)).2.2 = cs.length
    rw [tapStep_fold]
    simp only [Nat.zero_add]
    rw [countP_bool_split]
    simp
  · show (if ((cs.map runCase).foldl tapStep (0, 0, 0)).2.2 > 0 then 1 else 0) ≠ 0 ↔ _
    rw [tapStep_fold]
    simp only [Nat.zero_add]
    have hiff : 0 < (cs.map runCase).countP (fun r => !r) ↔ ∃ c ∈ cs, runCase c = false := by
      rw [List.countP_pos_iff]
      constructor
      · rintro ⟨r, hr, hrf⟩
        obtain ⟨c, hc, hceq⟩ := List.mem_map.mp hr
        refine ⟨c, hc, ?_⟩
        cases hrc : runCase c
        · rfl
        · rw [hceq] at hrc
          subst hrc
          simp at hrf
      · rintro ⟨c, hc, hcf⟩
        exact ⟨runCase c, List.mem_map.mpr ⟨c, hc, rfl⟩, by simp [hcf]⟩
    constructor
    · intro h
      apply hiff.mp
      by_contra hc
      simp only [Nat.not_lt, Nat.le_zero] at hc
      rw [hc] at h
      simp at h
    · intro hex
      have hpos := hiff.mpr hex
      simp only [gt_iff_lt]
      rw [if_pos hpos]
      exact one_ne_zero

/-! ## Determinism of the generation pipeline (claim C3) -/

/-- C3: compiling the same input twice produces byte-identical artifacts;
the whole pipeline (parse, resolve, analyze, render) is a pure function
of the description text (and of the platform request), with node
iteration in declaration order and no run-to-run state. -/
theorem c3_determinism :
    (∀ d1 d2 : String, d1 = d2 → compileDts d1 = compileDts d2) ∧
    (∀ (n1 n2 : List DTSNode) (p1 p2 : Option String),
      n1 = n2 → p1 = p2 → runCompiler n1 p1 = runCompiler n2 p2) := by
  constructor
  · intro d1 d2 h
    rw [h]
  · intro n1 n2 p1 p2 h hp
    rw [h, hp]

theorem c3_determinism_witness :
    scnDts = scnDts ∧ compileDts scnDts = compileDts scnDts :=
  ⟨rfl, c3_determinism.1 scnDts scnDts rfl⟩

/-! ## Dangling references are silently ignored (claim C1) -/

/-- C1 counterexample: on the scenario-C collection (a node referencing
the undeclared label `ghost`) the run exits 0, prints no diagnostic,
writes all five artifacts, and the reference is left unresolved — so the
claimed fatal resolution error does not happen. -/
theorem c1_counterexample :
    (runCompiler ghostNodes none).exitCode = 0 ∧
    (runCompiler ghostNodes none).messages = [] ∧
    (runCompiler ghostNodes none).files.map Prod.fst =
      ["lq_config.h", "lq_generated.h", "lq_generated.c", "lq_generated_test.dts", "main.c"] ∧
    getProp ((resolve_phandles_and_assign_ids ghostNodes).headD default).properties
      "source_signal" = none ∧
    getProp ((resolve_phandles_and_assign_ids ghostNodes).headD default).properties
      "source" = some (PropValue.pStr "ghost") := by
  refine ⟨rfl, rfl, rfl, ?_, ?_⟩ <;> decide

/-- C1 amended: the compiler has no resolution-failure path — every node
collection compiles with exit code 0, no diagnostics, and all five core
artifacts written; a single-reference property whose label resolves to
nothing is silently skipped, leaving the canonical resolved property
exactly as it was. -/
theorem c1_amended :
    (∀ nodes : List DTSNode,
        (runCompiler nodes none).exitCode = 0 ∧
        (runCompiler nodes none).messages = [] ∧
        (runCompiler nodes none).files.map Prod.fst =
          ["lq_config.h", "lq_generated.h", "lq_generated.c", "lq_generated_test.dts",
            "main.c"]) ∧
    (∀ (all : List DTSNode) (n : DTSNode) (r : String),
        getProp n.properties "source" = some (PropValue.pStr r) →
        lookupLabelSig all r = none →
        getProp (resolveNodeRefs all n).properties "source_signal" =
          getProp n.properties "source_signal") := by
  constructor
  · intro nodes
    exact ⟨rfl, rfl, rfl⟩
  · intro all n r hsrc hlook
    show getProp
        (resolveSingle all
          (resolveSingle all
            (resolveMulti all
              (resolveSingle all n.properties "source" "source_signal" "source_signal")
              "sources" "input_signal_ids")
            "input" "input_signal" "input_signal")
          "output" "output_signal" "output_signal") "source_signal" = _
    rw [getProp_resolveSingle_ne _ _ _ _ _ _ (by decide),
      getProp_resolveSingle_ne _ _ _ _ _ _ (by decide),
      getProp_resolveMulti_ne _ _ _ _ _ (by decide)]
    unfold resolveSingle
    simp only [hsrc, Option.isSome_some, if_true]
    unfold resolveRef
    simp only [hsrc, hlook]

theorem c1_amended_witness :
    getProp (ghostNodes.headD default).properties "source" =
        some (PropValue.pStr "ghost") ∧
      lookupLabelSig [] "ghost" = none ∧
      getProp (resolveNodeRefs [] (ghostNodes.headD default)).properties "source_signal" =
        getProp (ghostNodes.headD default).properties "source_signal" :=
  ⟨by decide, by decide,
    c1_amended.2 [] (ghostNodes.headD default) "ghost" (by decide) (by decide)⟩

/-! ## Unknown platform is non-fatal for the process (claim C8) -/

/-- C8 counterexample: requesting `--platform=unknown-target` reports the
unknown-platform error and writes no backend file, but the process exit
code is 0, not nonzero as claimed. -/
theorem c8_counterexample :
    (runCompiler [] (some "unknown-target")).exitCode = 0 ∧
    (runCompiler [] (some "unknown-target")).backendFile = none ∧
    (runCompiler [] (some "unknown-target")).messages =
      [unknownPlatformMsg "unknown-target"] := by
  refine ⟨rfl, ?_, ?_⟩ <;> decide

/-- C8 amended: for every platform name outside the closed supported set
the backend stage reports the unknown-platform error and produces no
backend file, and the core artifacts are exactly those of a run without a
platform request — but the process still exits 0. -/
theorem c8_amended (nodes : List DTSNode) (p : String)
    (h : supportedAdaptors.contains (asciiLower p) = false) :
    (runCompiler nodes (some p)).exitCode = 0 ∧
    (runCompiler nodes (some p)).backendFile = none ∧
    (runCompiler nodes (some p)).messages = [unknownPlatformMsg p] ∧
    (runCompiler nodes (some p)).files = (runCompiler nodes none).files := by
  refine ⟨rfl, ?_, ?_, rfl⟩
  · show (genPlatformHw p).1 = none
    unfold genPlatformHw
    rw [h]
    rfl
  · show (genPlatformHw p).2 = [unknownPlatformMsg p]
    unfold genPlatformHw
    rw [h]
    rfl

theorem c8_amended_witness :
    supportedAdaptors.contains (asciiLower "unknown-target") = false ∧
      (runCompiler [] (some "unknown-target")).backendFile = none ∧
      (runCompiler [] (some "unknown-target")).files = (runCompiler [] none).files :=
  ⟨by decide, (c8_amended [] "unknown-target" (by decide)).2.1,
    (c8_amended [] "unknown-target" (by decide)).2.2.2⟩

/-! ## The parser never reports malformed nesting (claim C7) -/

/-- C7 counterexample: on a source whose second node has malformed brace
nesting the parser silently returns the nodes its matching extracted (a
nonempty partial collection) instead of aborting with a parse error. -/
theorem c7_counterexample :
    (simple_dts_parse brokenDts).map DTSNode.label = ["s1"] ∧
    simple_dts_parse brokenDts ≠ [] := by
  constructor
  · decide
  · decide

/-! ## Signal identity assignment (claim C2) -/

theorem mem_intRange {x c : Int} : ∀ {k : Nat}, x ∈ intRange c k → c ≤ x := by
  intro k
  induction k generalizing c with
  | zero => intro h; simp [intRange] at h
  | succ k ih =>
    intro h
    simp only [intRange, List.mem_cons] at h
    rcases h with h | h
    · omega
    · have := ih h
      omega

theorem intRange_nodup (c : Int) : ∀ (k : Nat), (intRange c k).Nodup := by
  intro k
  induction k generalizing c with
  | zero => exact List.nodup_nil
  | succ k ih =>
    refine List.nodup_cons.mpr ⟨?_, ih (c + 1)⟩
    intro hmem
    have := mem_intRange hmem
    omega

theorem getIntProp_none_of_getProp_none (ps : Props) (k : String)
    (h : getProp ps k = none) : getIntProp ps k = none := by
  unfold getIntProp
  rw [h]

/-- Shape (a): unassigned clean node contributes nothing. -/
theorem attrDominates_skip (n : DTSNode) (h : threeKeysAbsent n) (hs : n.signal_id = none) :
    attrDominates n := by
  intro acc
  obtain ⟨h1, h2, h3⟩ := h
  unfold maxSigStep
  rw [hs, getIntProp_none_of_getProp_none _ _ h1, getIntProp_none_of_getProp_none _ _ h2,
    getIntProp_none_of_getProp_none _ _ h3]
  rfl

/-- Shape (b): auto-assigned node — attribute and recorded `signal_id`
property agree. -/
theorem attrDominates_auto (n : DTSNode) (c : Int) (h : threeKeysAbsent n) :
    attrDominates
      { n with signal_id := some c,
               properties := setProp n.properties "signal_id" (PropValue.pInt c) } := by
  intro acc
  obtain ⟨h1, h2, h3⟩ := h
  unfold maxSigStep
  show maxOpt (maxOpt (maxOpt (maxOpt acc (some c))
      (getIntProp (setProp n.properties "signal_id" (PropValue.pInt c)) "signal_id"))
      (getIntProp (setProp n.properties "signal_id" (PropValue.pInt c)) "output_signal_id"))
      (getIntProp (setProp n.properties "signal_id" (PropValue.pInt c)) "fault_output_signal_id")
    = maxOpt acc (some c)
  have e1 : getIntProp (setProp n.properties "signal_id" (PropValue.pInt c)) "signal_id"
      = some c := by
    unfold getIntProp
    rw [getProp_setProp_self]
  have e2 : getIntProp (setProp n.properties "signal_id" (PropValue.pInt c)) "output_signal_id"
      = none := by
    apply getIntProp_none_of_getProp_none
    rw [getProp_setProp_ne _ _ _ _ (by decide)]
    exact h2
  have e3 : getIntProp (setProp n.properties "signal_id" (PropValue.pInt c))
      "fault_output_signal_id" = none := by
    apply getIntProp_none_of_getProp_none
    rw [getProp_setProp_ne _ _ _ _ (by decide)]
    exact h3
  rw [e1, e2, e3]
  show max (max acc c) c = max acc c
  rw [max_assoc, max_self]

/-- Shape (c): fault monitor with a freshly recorded fault-output
identity. -/
theorem attrDominates_fault (n : DTSNode) (c : Int) (h : threeKeysAbsent n) :
    attrDominates
      { n with signal_id := some c,
               properties := setProp n.properties "fault_output_signal_id" (PropValue.pInt c) } := by
  intro acc
  obtain ⟨h1, h2, h3⟩ := h
  unfold maxSigStep
  have e1 : getIntProp (setProp n.properties "fault_output_signal_id" (PropValue.pInt c))
      "signal_id" = none := by
    apply getIntProp_none_of_getProp_none
    rw [getProp_setProp_ne _ _ _ _ (by decide)]
    exact h1
  have e2 : getIntProp (setProp n.properties "fault_output_signal_id" (PropValue.pInt c))
      "output_signal_id" = none := by
    apply getIntProp_none_of_getProp_none
    rw [getProp_setProp_ne _ _ _ _ (by decide)]
    exact h2
  have e3 : getIntProp (setProp n.properties "fault_output_signal_id" (PropValue.pInt c))
      "fault_output_signal_id" = some c := by
    unfold getIntProp
    rw [getProp_setProp_self]
  rw [e1, e2, e3]
  show max (max acc c) c = max acc c
  rw [max_assoc, max_self]

/-- Phase one of the resolver on a clean collection assigns exactly the
consecutive identities `c, c+1, ...` to the signal-producing nodes, and
leaves every node in attribute-dominated shape. -/
theorem assignIds_spec : ∀ (l : List DTSNode) (c : Int),
    (∀ n ∈ l, threeKeysAbsent n ∧ n.signal_id = none) →
    assignedIds (assignIds c l) = intRange c (l.countP isProducer) ∧
    (∀ n ∈ assignIds c l, attrDominates n) := by
  intro l
  induction l with
  | nil =>
    intro c _
    refine ⟨rfl, ?_⟩
    intro n hn
    simp [assignIds] at hn
  | cons n t ih =>
    intro c h
    obtain ⟨⟨h1, h2, h3⟩, hs⟩ := h n (List.mem_cons_self n t)
    have ht : ∀ m ∈ t, threeKeysAbsent m ∧ m.signal_id = none := fun m hm =>
      h m (List.mem_cons_of_mem n hm)
    have hgi : getIntProp n.properties "signal_id" = none :=
      getIntProp_none_of_getProp_none _ _ h1
    have hstep : assignIds c (n :: t) =
        (if isAutoSignal n.compatible then
          { n with signal_id := some c,
                   properties := setProp n.properties "signal_id" (PropValue.pInt c) }
            :: assignIds (c + 1) t
        else if n.compatible = "lq,fault-monitor" then
          (if (getProp n.properties "fault_output_signal_id").isSome then
            n :: assignIds c t
          else
            { n with signal_id := some c,
                     properties :=
                       setProp n.properties "fault_output_signal_id" (PropValue.pInt c) }
              :: assignIds (c + 1) t)
        else n :: assignIds c t) := by
      rw [assignIds.eq_def]
      simp only [hgi]
    rw [hstep]
    by_cases hauto : isAutoSignal n.compatible = true
    · rw [if_pos hauto]
      obtain ⟨ihIds, ihDom⟩ := ih (c + 1) ht
      constructor
      · have hcount : (n :: t).countP isProducer = t.countP isProducer + 1 := by
          rw [List.countP_cons]
          simp [isProducer, hauto]
        rw [hcount]
        show c :: assignedIds (assignIds (c + 1) t) = c :: intRange (c + 1) (t.countP isProducer)
        exact congrArg (List.cons c) ihIds
      · intro m hm
        rcases List.mem_cons.mp hm with hm | hm
        · subst hm
          exact attrDominates_auto _ c ⟨h1, h2, h3⟩
        · exact ihDom m hm
    · rw [if_neg hauto]
      by_cases hfm : n.compatible = "lq,fault-monitor"
      · rw [if_pos hfm]
        have hnotset : (getProp n.properties "fault_output_signal_id").isSome = false := by
          rw [h3]
          rfl
        rw [if_neg (by rw [hnotset]; exact Bool.false_ne_true)]
        obtain ⟨ihIds, ihDom⟩ := ih (c + 1) ht
        constructor
        · have hcount : (n :: t).countP isProducer = t.countP isProducer + 1 := by
            rw [List.countP_cons]
            simp [isProducer, hfm]
          rw [hcount]
          show c :: assignedIds (assignIds (c + 1) t) = c :: intRange (c + 1) (t.countP isProducer)
          exact congrArg (List.cons c) ihIds
        · intro m hm
          rcases List.mem_cons.mp hm with hm | hm
          · subst hm
            exact attrDominates_fault _ c ⟨h1, h2, h3⟩
          · exact ihDom m hm
      · rw [if_neg hfm]
        obtain ⟨ihIds, ihDom⟩ := ih c ht
        constructor
        · unfold assignedIds
          rw [List.filterMap_cons, hs]
          have hcount : (n :: t).countP isProducer = t.countP isProducer := by
            rw [List.countP_cons]
            simp [isProducer, hauto, hfm]
          rw [hcount]
          exact ihIds
        · intro m hm
          rcases List.mem_cons.mp hm with hm | hm
          · subst hm
            exact attrDominates_skip _ ⟨h1, h2, h3⟩ hs
          · exact ihDom m hm

theorem assignedIds_map_resolve (all : List DTSNode) :
    ∀ l : List DTSNode, assignedIds (l.map (resolveNodeRefs all)) = assignedIds l := by
  intro l
  induction l with
  | nil => rfl
  | cons n t ih =>
    unfold assignedIds at *
    rw [List.map_cons, List.filterMap_cons, List.filterMap_cons,
      resolveNodeRefs_signal_id]
    cases n.signal_id with
    | none => exact ih
    | some v => rw [ih]

theorem attrDominates_resolve (all : List DTSNode) (n : DTSNode)
    (h : attrDominates n) : attrDominates (resolveNodeRefs all n) := by
  intro acc
  rw [maxSigStep_resolveNodeRefs, resolveNodeRefs_signal_id]
  exact h acc

theorem foldl_maxSigStep_attr : ∀ (l : List DTSNode) (a : Int),
    (∀ n ∈ l, attrDominates n) → l.foldl maxSigStep a = (assignedIds l).foldl max a := by
  intro l
  induction l with
  | nil => intro a _; rfl
  | cons n t ih =>
    intro a h
    have hn := h n (List.mem_cons_self n t)
    have ht : ∀ m ∈ t, attrDominates m := fun m hm => h m (List.mem_cons_of_mem n hm)
    show t.foldl maxSigStep (maxSigStep a n) = _
    rw [hn a, ih _ ht]
    unfold assignedIds
    rw [List.filterMap_cons]
    cases hsv : n.signal_id with
    | none => rfl
    | some v => rfl

theorem maxAssignedId_eq_fold : ∀ l : List DTSNode,
    maxAssignedId l = (assignedIds l).foldl max 0 := by
  have aux : ∀ (l : List DTSNode) (a : Int),
      l.foldl
        (fun a n =>
          match n.signal_id with
          | some v => max a v
          | none => a)
        a = (assignedIds l).foldl max a := by
    intro l
    induction l with
    | nil => intro a; rfl
    | cons n t ih =>
      intro a
      unfold assignedIds
      rw [List.filterMap_cons]
      cases hsv : n.signal_id with
      | none =>
        show t.foldl _ (match n.signal_id with | some v => max a v | none => a) = _
        rw [hsv]
        exact ih a
      | some v =>
        show t.foldl _ (match n.signal_id with | some v => max a v | none => a) = _
        rw [hsv]
        exact ih (max a v)
  intro l
  exact aux l 0

/-- C2 counterexample: in a mixed collection (an auto-assigned hardware
input followed by one with an explicit `signal-id = <0>`), two
signal-producing nodes end up with the same identity 0. -/
theorem c2_counterexample :
    assignedIds (resolve_phandles_and_assign_ids dupIdNodes) = [0, 0] ∧
    ¬ (assignedIds (resolve_phandles_and_assign_ids dupIdNodes)).Nodup := by
  constructor
  · decide
  · decide

/-- C2 amended: on collections in which no node carries an explicit
`signal-id`, `output-signal-id` or `fault-output-signal-id` property,
the resolver assigns pairwise-distinct identities, and the analyzer's
total signal count equals one plus the maximum assigned identity (the
maximum taken with floor 0, which coincides with the true maximum as
soon as one signal-producing node exists). -/
theorem c2_amended (nodes : List DTSNode) (h : ∀ n ∈ nodes, threeKeysAbsent n) :
    (assignedIds (resolve_phandles_and_assign_ids nodes)).Nodup ∧
    (calculate_resource_counts (resolve_phandles_and_assign_ids nodes)).num_signals =
      maxAssignedId (resolve_phandles_and_assign_ids nodes) + 1 := by
  have hreset : ∀ n ∈ nodes.map (fun n => { n with signal_id := none }),
      threeKeysAbsent n ∧ n.signal_id = none := by
    intro n hn
    obtain ⟨m, hm, hmeq⟩ := List.mem_map.mp hn
    subst hmeq
    exact ⟨h m hm, rfl⟩
  obtain ⟨hids, hdom⟩ :=
    assignIds_spec (nodes.map (fun n => { n with signal_id := none })) 0 hreset
  have hR : resolve_phandles_and_assign_ids nodes =
      (assignIds 0 (nodes.map (fun n => { n with signal_id := none }))).map
        (resolveNodeRefs (assignIds 0 (nodes.map (fun n => { n with signal_id := none })))) :=
    rfl
  have hidsR : assignedIds (resolve_phandles_and_assign_ids nodes) =
      intRange 0 ((nodes.map (fun n => { n with signal_id := none })).countP isProducer) := by
    rw [hR, assignedIds_map_resolve, hids]
  have hdomR : ∀ n ∈ resolve_phandles_and_assign_ids nodes, attrDominates n := by
    intro n hn
    rw [hR] at hn
    obtain ⟨m, hm, hmeq⟩ := List.mem_map.mp hn
    subst hmeq
    exact attrDominates_resolve _ m (hdom m hm)
  constructor
  · rw [hidsR]
    exact intRange_nodup _ _
  · rw [num_signals_eq_fold, foldl_maxSigStep_attr _ _ hdomR, maxAssignedId_eq_fold]

theorem c2_amended_witness :
    (∀ n ∈ oneHwNode, threeKeysAbsent n) ∧
      (assignedIds (resolve_phandles_and_assign_ids oneHwNode)).Nodup ∧
      (calculate_resource_counts (resolve_phandles_and_assign_ids oneHwNode)).num_signals =
        maxAssignedId (resolve_phandles_and_assign_ids oneHwNode) + 1 :=
  ⟨by decide, (c2_amended oneHwNode (by decide)).1, (c2_amended oneHwNode (by decide)).2⟩

/-! ## Per-category count exactness (claim C4) -/

theorem ne_of_hw (s x : String) (h : strStartsWith s "lq,hw-" = true)
    (hx : strStartsWith x "lq,hw-" = false) : s ≠ x := by
  intro he
  subst he
  rw [h] at hx
  cases hx

/-- In the hardware-input branch every other category test is false. -/
theorem predHw_excl (n : DTSNode) (h : predHw n = true) :
    predScale n = false ∧ predRemap n = false ∧ predMerge n = false ∧
      predFault n = false ∧ predCyclic n = false ∧ predPid n = false ∧
      predVerified n = false := by
  unfold predHw at h
  have q1 : n.compatible ≠ "lq-scale" := ne_of_hw _ "lq-scale" h (by decide)
  have q2 : n.compatible ≠ "lq,scale" := ne_of_hw _ "lq,scale" h (by decide)
  have q3 : n.compatible ≠ "lq,remap" := ne_of_hw _ "lq,remap" h (by decide)
  have q4 : n.compatible ≠ "lq,mid-merge" := ne_of_hw _ "lq,mid-merge" h (by decide)
  have q5 : n.compatible ≠ "lq,fault-monitor" := ne_of_hw _ "lq,fault-monitor" h (by decide)
  have q6 : n.compatible ≠ "lq,cyclic-output" := ne_of_hw _ "lq,cyclic-output" h (by decide)
  have q7 : n.compatible ≠ "lq,pid" := ne_of_hw _ "lq,pid" h (by decide)
  have q8 : n.compatible ≠ "lq,pid-controller" := ne_of_hw _ "lq,pid-controller" h (by decide)
  have q9 : n.compatible ≠ "lq,verified-output" := ne_of_hw _ "lq,verified-output" h (by decide)
  refine ⟨?_, ?_, ?_, ?_, ?_, ?_, ?_⟩ <;>
    simp [predScale, predRemap, predMerge, predFault, predCyclic, predPid, predVerified,
      q1, q2, q3, q4, q5, q6, q7, q8, q9]

/-- The value of one analyzer counting step, field by field. -/
theorem countStep_fields (acc : ResourceCounts) (n : DTSNode) :
    (countStep acc n).num_hw_inputs = acc.num_hw_inputs + (if predHw n then 1 else 0) ∧
    (countStep acc n).num_scales = acc.num_scales + (if predScale n then 1 else 0) ∧
    (countStep acc n).num_remaps = acc.num_remaps + (if predRemap n then 1 else 0) ∧
    (countStep acc n).num_merges = acc.num_merges + (if predMerge n then 1 else 0) ∧
    (countStep acc n).num_fault_monitors =
      acc.num_fault_monitors + (if predFault n then 1 else 0) ∧
    (countStep acc n).num_cyclic_outputs =
      acc.num_cyclic_outputs + (if predCyclic n then 1 else 0) ∧
    (countStep acc n).num_pid_controllers =
      acc.num_pid_controllers + (if predPid n then 1 else 0) ∧
    (countStep acc n).num_verified_outputs =
      acc.num_verified_outputs + (if predVerified n then 1 else 0) ∧
    (countStep acc n).max_merge_inputs =
      (if predMerge n then max acc.max_merge_inputs (mergeInputLen n.properties)
       else acc.max_merge_inputs) := by
  have w1 : strStartsWith "lq-scale" "lq,hw-" = false := by decide
  have w2 : strStartsWith "lq,scale" "lq,hw-" = false := by decide
  have w3 : strStartsWith "lq,remap" "lq,hw-" = false := by decide
  have w4 : strStartsWith "lq,mid-merge" "lq,hw-" = false := by decide
  have w5 : strStartsWith "lq,fault-monitor" "lq,hw-" = false := by decide
  have w6 : strStartsWith "lq,cyclic-output" "lq,hw-" = false := by decide
  have w7 : strStartsWith "lq,pid" "lq,hw-" = false := by decide
  have w8 : strStartsWith "lq,pid-controller" "lq,hw-" = false := by decide
  have w9 : strStartsWith "lq,verified-output" "lq,hw-" = false := by decide
  by_cases h1 : predHw n = true
  · obtain ⟨e1, e2, e3, e4, e5, e6, e7⟩ := predHw_excl n h1
    unfold countStep
    simp [h1, e1, e2, e3, e4, e5, e6, e7]
  · by_cases h2 : predScale n = true
    · rcases (by simpa [predScale] using h2 :
          n.compatible = "lq-scale" ∨ n.compatible = "lq,scale") with hs | hs <;>
        (unfold countStep
         simp [predHw, predScale, predRemap, predMerge, predFault, predCyclic, predPid,
           predVerified, hs, h1, w1, w2, w3, w4, w5, w6, w7, w8, w9])
    · by_cases h3 : predRemap n = true
      · have hs : n.compatible = "lq,remap" := by simpa [predRemap] using h3
        unfold countStep
        simp [predHw, predScale, predRemap, predMerge, predFault, predCyclic, predPid,
          predVerified, hs, w1, w2, w3, w4, w5, w6, w7, w8, w9]
      · by_cases h4 : predMerge n = true
        · have hs : n.compatible = "lq,mid-merge" := by simpa [predMerge] using h4
          unfold countStep
          simp [predHw, predScale, predRemap, predMerge, predFault, predCyclic, predPid,
            predVerified, hs, w1, w2, w3, w4, w5, w6, w7, w8, w9]
        · by_cases h5 : predFault n = true
          · have hs : n.compatible = "lq,fault-monitor" := by simpa [predFault] using h5
            unfold countStep
            simp [predHw, predScale, predRemap, predMerge, predFault, predCyclic, predPid,
              predVerified, hs, w1, w2, w3, w4, w5, w6, w7, w8, w9]
          · by_cases h6 : predCyclic n = true
            · have hs : n.compatible = "lq,cyclic-output" := by simpa [predCyclic] using h6
              unfold countStep
              simp [predHw, predScale, predRemap, predMerge, predFault, predCyclic, predPid,
                predVerified, hs, w1, w2, w3, w4, w5, w6, w7, w8, w9]
            · by_cases h7 : predPid n = true
              · rcases (by simpa [predPid] using h7 :
                    n.compatible = "lq,pid" ∨ n.compatible = "lq,pid-controller") with hs | hs <;>
                  (unfold countStep
                   simp [predHw, predScale, predRemap, predMerge, predFault, predCyclic,
                     predPid, predVerified, hs, h1, w1, w2, w3, w4, w5, w6, w7, w8, w9])
              · by_cases h8 : predVerified n = true
                · have hs : n.compatible = "lq,verified-output" := by
                    simpa [predVerified] using h8
                  unfold countStep
                  simp [predHw, predScale, predRemap, predMerge, predFault, predCyclic,
                    predPid, predVerified, hs, w1, w2, w3, w4, w5, w6, w7, w8, w9]
                · unfold countStep
                  simp [h1, h2, h3, h4, h5, h6, h7, h8]

/-- Counting-loop characterization: each category counter of the fold is
the accumulator plus the literal number of nodes passing that category's
test, and the merge fan-in is the running maximum of the merge blocks'
input-list lengths. -/
theorem counts_fold : ∀ (l : List DTSNode) (acc : ResourceCounts),
    (l.foldl countStep acc).num_hw_inputs = acc.num_hw_inputs + l.countP predHw ∧
    (l.foldl countStep acc).num_scales = acc.num_scales + l.countP predScale ∧
    (l.foldl countStep acc).num_remaps = acc.num_remaps + l.countP predRemap ∧
    (l.foldl countStep acc).num_merges = acc.num_merges + l.countP predMerge ∧
    (l.foldl countStep acc).num_fault_monitors =
      acc.num_fault_monitors + l.countP predFault ∧
    (l.foldl countStep acc).num_cyclic_outputs =
      acc.num_cyclic_outputs + l.countP predCyclic ∧
    (l.foldl countStep acc).num_pid_controllers =
      acc.num_pid_controllers + l.countP predPid ∧
    (l.foldl countStep acc).num_verified_outputs =
      acc.num_verified_outputs + l.countP predVerified ∧
    (l.foldl countStep acc).max_merge_inputs =
      (l.filter predMerge).foldl (fun a n => max a (mergeInputLen n.properties))
        acc.max_merge_inputs := by
  intro l
  induction l with
  | nil =>
    intro acc
    simp
  | cons n t ih =>
    intro acc
    obtain ⟨f1, f2, f3, f4, f5, f6, f7, f8, f9⟩ := countStep_fields acc n
    obtain ⟨g1, g2, g3, g4, g5, g6, g7, g8, g9⟩ := ih (countStep acc n)
    simp only [List.foldl_cons]
    rw [g1, g2, g3, g4, g5, g6, g7, g8, g9, f1, f2, f3, f4, f5, f6, f7, f8]
    refine ⟨?_, ?_, ?_, ?_, ?_, ?_, ?_, ?_, ?_⟩ <;>
      first
        | (rw [List.countP_cons]; omega)
        | (rw [List.filter_cons]
           by_cases hm : predMerge n = true
           · rw [if_pos hm] at f9
             rw [if_pos hm, List.foldl_cons, f9]
           · rw [if_neg hm] at f9
             rw [if_neg hm, f9])

/-- C4 counterexample: a generic `lq,input` node bound to `can0` is
counted in no category by the analyzer (`num_hw_inputs = 0`), yet the
source generator's categorization normalizes that same resolved
collection into one hardware-input node — so the emitted code has more
hardware inputs than the resource bounds account for. -/
theorem c4_counterexample :
    (calculate_resource_counts
        (resolve_phandles_and_assign_ids genericInputNodes)).num_hw_inputs = 0 ∧
    ((sourceCategorize
        (resolve_phandles_and_assign_ids genericInputNodes)).hw_inputs.countP predHw = 1) ∧
    (sourceCategorize (resolve_phandles_and_assign_ids genericInputNodes)).mutatedNodes.countP
        predHw = 1 ∧
    (resolve_phandles_and_assign_ids genericInputNodes).countP predHw = 0 := by
  refine ⟨?_, ?_, ?_, ?_⟩ <;> decide

/-- C4 amended: every per-category instance count equals the literal
number of nodes of that declared type in the collection the analyzer is
given (before the source generator's later normalization of generic
`lq,input`/`lq,output` forms), and the merge fan-in bound is the maximum
input-list length over the merge blocks. -/
theorem c4_amended (nodes : List DTSNode) :
    (calculate_resource_counts nodes).num_hw_inputs = nodes.countP predHw ∧
    (calculate_resource_counts nodes).num_scales = nodes.countP predScale ∧
    (calculate_resource_counts nodes).num_remaps = nodes.countP predRemap ∧
    (calculate_resource_counts nodes).num_merges = nodes.countP predMerge ∧
    (calculate_resource_counts nodes).num_fault_monitors = nodes.countP predFault ∧
    (calculate_resource_counts nodes).num_cyclic_outputs = nodes.countP predCyclic ∧
    (calculate_resource_counts nodes).num_pid_controllers = nodes.countP predPid ∧
    (calculate_resource_counts nodes).num_verified_outputs = nodes.countP predVerified ∧
    (calculate_resource_counts nodes).max_merge_inputs = (mergeFanIns nodes).foldl max 0 := by
  obtain ⟨e1, e2, e3, e4, e5, e6, e7, e8, e9⟩ :=
    counts_fold nodes { initialCounts with hw_ringbuffer_size := ringOverride nodes }
  refine ⟨?_, ?_, ?_, ?_, ?_, ?_, ?_, ?_, ?_⟩
  · show (nodes.foldl countStep _).num_hw_inputs = _
    rw [e1]
    simp [initialCounts]
  · show (nodes.foldl countStep _).num_scales = _
    rw [e2]
    simp [initialCounts]
  · show (nodes.foldl countStep _).num_remaps = _
    rw [e3]
    simp [initialCounts]
  · show (nodes.foldl countStep _).num_merges = _
    rw [e4]
    simp [initialCounts]
  · show (nodes.foldl countStep _).num_fault_monitors = _
    rw [e5]
    simp [initialCounts]
  · show (nodes.foldl countStep _).num_cyclic_outputs = _
    rw [e6]
    simp [initialCounts]
  · show (nodes.foldl countStep _).num_pid_controllers = _
    rw [e7]
    simp [initialCounts]
  · show (nodes.foldl countStep _).num_verified_outputs = _
    rw [e8]
    simp [initialCounts]
  · show (nodes.foldl countStep _).max_merge_inputs = _
    rw [e9]
    unfold mergeFanIns
    rw [List.foldl_map]
    rfl

/-! ## PDO signal-identity ranges (claim C5) -/

theorem pdoEntries_sig_mem (objs : List (Nat × String)) (tag : String) (base k : Nat) :
    ∀ (j : Nat) (maps : List RawMapping) (x : Nat),
      x ∈ (pdoEntries objs tag base k j maps).map MappedEntry.signal_id →
      ∃ jx : Nat, jx < maps.length ∧ x = base + k * 32 + (j + jx) := by
  intro j maps
  induction maps generalizing j with
  | nil =>
    intro x hx
    simp [pdoEntries] at hx
  | cons m rest ih =>
    intro x hx
    simp only [pdoEntries, List.map_cons, List.mem_cons] at hx
    rcases hx with hx | hx
    · exact ⟨0, by simp, by omega⟩
    · obtain ⟨jx, hjx, hxe⟩ := ih (j + 1) x hx
      exact ⟨jx + 1, by simp only [List.length_cons]; omega, by omega⟩

theorem buildPdos_mem (objs : List (Nat × String)) (tag : String)
    (cobBase sigBase nodeId : Nat) (slots : List (Nat × List RawMapping)) (p : EdsPdo) :
    p ∈ buildPdos objs tag cobBase sigBase nodeId slots →
    ∃ km ∈ slots, km.2 ≠ [] ∧
      p = { cob_id := cobBase + km.1 * 0x100 + nodeId,
            mappings := pdoEntries objs tag sigBase km.1 0 km.2 } := by
  intro hp
  unfold buildPdos at hp
  obtain ⟨km, hkm, hcond⟩ := List.mem_filterMap.mp hp
  by_cases he : km.2.isEmpty
  · rw [if_pos he] at hcond
    cases hcond
  · rw [if_neg he] at hcond
    refine ⟨km, hkm, ?_, (Option.some_inj.mp hcond).symm⟩
    intro hnil
    exact he (by simp [hnil])

theorem rx_ids_lt (d : EdsDevice)
    (h0 : d.r0.length ≤ 8) (h1 : d.r1.length ≤ 8) (h2 : d.r2.length ≤ 8)
    (h3 : d.r3.length ≤ 4) :
    ∀ x ∈ pdoSignalIds (parse_eds_file d).rpdos, x < 100 := by
  intro x hx
  unfold pdoSignalIds at hx
  obtain ⟨p, hp, hxp⟩ := List.mem_flatMap.mp hx
  obtain ⟨km, hkm, hne, hpe⟩ := buildPdos_mem _ _ _ _ _ _ _ hp
  subst hpe
  obtain ⟨jx, hjx, hxe⟩ := pdoEntries_sig_mem _ _ _ _ 0 km.2 x (by simpa using hxp)
  simp only [rpdoSlots, List.mem_cons, List.not_mem_nil, or_false] at hkm
  rcases hkm with hkm | hkm | hkm | hkm <;>
    (subst hkm; simp only [] at hjx hxe; omega)

theorem tx_ids_ge (d : EdsDevice) :
    ∀ y ∈ pdoSignalIds (parse_eds_file d).tpdos, 100 ≤ y := by
  intro y hy
  unfold pdoSignalIds at hy
  obtain ⟨p, hp, hyp⟩ := List.mem_flatMap.mp hy
  obtain ⟨km, hkm, hne, hpe⟩ := buildPdos_mem _ _ _ _ _ _ _ hp
  subst hpe
  obtain ⟨jx, hjx, hye⟩ := pdoEntries_sig_mem _ _ _ _ 0 km.2 y (by simpa using hyp)
  omega

/-- C5 counterexample: a device with five mapping entries in receive
slot 3 and one in transmit slot 0 — the identity 100 appears in both the
receive and the transmit ranges. -/
theorem c5_counterexample :
    100 ∈ pdoSignalIds (parse_eds_file devRxOverlap).rpdos ∧
    100 ∈ pdoSignalIds (parse_eds_file devRxOverlap).tpdos := by
  constructor <;> decide

/-- C5 amended: receive identities are `32·slot + entry` and transmit
identities `100 + 32·slot + entry`; transmit identities are always at
least 100, receive identities stay below 100 — hence the two sets are
disjoint — provided receive slot 3 carries at most four entries (with at
most eight elsewhere, as the parser guarantees); the receive range is
anchored at 0 and the transmit range at 100 whenever slot 0 is
populated. -/
theorem c5_amended (d : EdsDevice)
    (h0 : d.r0.length ≤ 8) (h1 : d.r1.length ≤ 8) (h2 : d.r2.length ≤ 8)
    (h3 : d.r3.length ≤ 4) :
    (∀ x ∈ pdoSignalIds (parse_eds_file d).rpdos, x < 100) ∧
    (∀ y ∈ pdoSignalIds (parse_eds_file d).tpdos, 100 ≤ y) ∧
    (∀ x ∈ pdoSignalIds (parse_eds_file d).rpdos,
      ∀ y ∈ pdoSignalIds (parse_eds_file d).tpdos, x ≠ y) ∧
    (d.r0 ≠ [] → 0 ∈ pdoSignalIds (parse_eds_file d).rpdos) ∧
    (d.t0 ≠ [] → 100 ∈ pdoSignalIds (parse_eds_file d).tpdos) := by
  refine ⟨rx_ids_lt d h0 h1 h2 h3, tx_ids_ge d, ?_, ?_, ?_⟩
  · intro x hx y hy
    have hxl := rx_ids_lt d h0 h1 h2 h3 x hx
    have hyg := tx_ids_ge d y hy
    omega
  · intro hne
    cases hr : d.r0 with
    | nil => exact absurd hr hne
    | cons m rest =>
      unfold pdoSignalIds parse_eds_file buildPdos rpdoSlots
      apply List.mem_flatMap.mpr
      refine ⟨{ cob_id := 0x200 + 0 * 0x100 + 5,
                mappings := pdoEntries d.objects "RPDO" 0 0 0 d.r0 }, ?_, ?_⟩
      · simp [hr]
      · rw [hr]
        simp [pdoEntries]
  · intro hne
    cases hr : d.t0 with
    | nil => exact absurd hr hne
    | cons m rest =>
      unfold pdoSignalIds parse_eds_file buildPdos tpdoSlots
      apply List.mem_flatMap.mpr
      refine ⟨{ cob_id := 0x180 + 0 * 0x100 + 5,
                mappings := pdoEntries d.objects "TPDO" 100 0 0 d.t0 }, ?_, ?_⟩
      · simp [hr]
      · rw [hr]
        simp [pdoEntries]

theorem c5_amended_witness :
    (devDisjoint.r0.length ≤ 8 ∧ devDisjoint.r1.length ≤ 8 ∧ devDisjoint.r2.length ≤ 8 ∧
      devDisjoint.r3.length ≤ 4) ∧
    (∀ x ∈ pdoSignalIds (parse_eds_file devDisjoint).rpdos,
      ∀ y ∈ pdoSignalIds (parse_eds_file devDisjoint).tpdos, x ≠ y) :=
  ⟨⟨by decide, by decide, by decide, by decide⟩,
    (c5_amended devDisjoint (by decide) (by decide) (by decide) (by decide)).2.2.1⟩

/-! ## COB-ID recomputation on node-id override (claim C6) -/

theorem findIdx_eq_at {α : Type} : ∀ (l : List α) (p : α → Bool) (k : Nat)
    (hk : k < l.length),
    (∀ j (hj : j < l.length), j < k → p (l.get ⟨j, hj⟩) = false) →
    p (l.get ⟨k, hk⟩) = true → l.findIdx p = k := by
  intro l
  induction l with
  | nil =>
    intro p k hk
    simp at hk
  | cons a t ih =>
    intro p k hk hbefore hit
    cases k with
    | zero =>
      have : p a = true := hit
      simp [List.findIdx_cons, this]
    | succ k' =>
      have ha : p a = false := hbefore 0 (by simp) (Nat.succ_pos k')
      simp only [List.findIdx_cons, ha, cond_false]
      have := ih p k' (by simpa using hk)
        (fun j hj hjk => hbefore (j + 1) (by simpa using hj) (by omega)) hit
      omega

theorem get_congr_list {α : Type} (l l2 : List α) (h : l = l2) (j : Nat)
    (hj : j < l.length) (hj2 : j < l2.length) : l.get ⟨j, hj⟩ = l2.get ⟨j, hj2⟩ := by
  subst h
  rfl

theorem overrideGo_length (base nodeId : Nat) :
    ∀ (fuel : Nat) (cur : List EdsPdo) (i : Nat),
      (overrideGo base nodeId cur i fuel).length = cur.length := by
  intro fuel
  induction fuel with
  | zero => intro cur i; rfl
  | succ fuel ih =>
    intro cur i
    show (match cur.get? i with
      | none => cur
      | some p =>
        overrideGo base nodeId (cur.set i (pdoUpdate base nodeId (pdoIndex cur p) p))
          (i + 1) fuel).length = cur.length
    cases hc : cur.get? i with
    | none => rfl
    | some p =>
      rw [ih]
      exact List.length_set cur i _ ▸ rfl

theorem pdoUpdate_mappings (base nodeId idx : Nat) (p : EdsPdo) :
    (pdoUpdate base nodeId idx p).mappings = p.mappings := rfl

theorem overrideGo_spec (base nodeId : Nat) (orig : List EdsPdo)
    (hdist : ∀ i j (hi : i < orig.length) (hj : j < orig.length), i ≠ j →
      (orig.get ⟨i, hi⟩).mappings ≠ (orig.get ⟨j, hj⟩).mappings) :
    ∀ (fuel i : Nat) (cur : List EdsPdo) (hlen : cur.length = orig.length),
      fuel + i = orig.length →
      (∀ j (hj : j < orig.length), j < i →
        cur.get ⟨j, by omega⟩ = pdoUpdate base nodeId j (orig.get ⟨j, hj⟩)) →
      (∀ j (hj : j < orig.length), i ≤ j → cur.get ⟨j, by omega⟩ = orig.get ⟨j, hj⟩) →
      ∀ j (hj : j < orig.length),
        (overrideGo base nodeId cur i fuel).get
            ⟨j, by rw [overrideGo_length, hlen]; exact hj⟩ =
          pdoUpdate base nodeId j (orig.get ⟨j, hj⟩) := by
  intro fuel
  induction fuel with
  | zero =>
    intro i cur hlen hfi hbefore hafter j hj
    exact hbefore j hj (by omega)
  | succ fuel ih =>
    intro i cur hlen hfi hbefore hafter j hj
    have hi : i < orig.length := by omega
    have hic : i < cur.length := by omega
    have hcg : cur.get? i = some (cur.get ⟨i, hic⟩) := List.get?_eq_get hic
    have hcur_i : cur.get ⟨i, hic⟩ = orig.get ⟨i, hi⟩ := hafter i hi (le_refl i)
    have hidx : pdoIndex cur (cur.get ⟨i, hic⟩) = i := by
      unfold pdoIndex
      apply findIdx_eq_at cur _ i hic
      · intro jj hjj hjk
        have hjo : jj < orig.length := by omega
        have hjv : cur.get ⟨jj, hjj⟩ = pdoUpdate base nodeId jj (orig.get ⟨jj, hjo⟩) :=
          hbefore jj hjo hjk
        have hmne : (cur.get ⟨jj, hjj⟩).mappings ≠ (cur.get ⟨i, hic⟩).mappings := by
          rw [hjv, pdoUpdate_mappings, hcur_i]
          exact hdist jj i hjo hi (by omega)
        have : cur.get ⟨jj, hjj⟩ ≠ cur.get ⟨i, hic⟩ := fun he => hmne (by rw [he])
        exact beq_eq_false_iff_ne.mpr this
      · exact beq_self_eq_true _
    have hstep : overrideGo base nodeId cur i (fuel + 1) =
        overrideGo base nodeId
          (cur.set i (pdoUpdate base nodeId i (cur.get ⟨i, hic⟩))) (i + 1) fuel := by
      show (match cur.get? i with
        | none => cur
        | some p =>
          overrideGo base nodeId (cur.set i (pdoUpdate base nodeId (pdoIndex cur p) p))
            (i + 1) fuel) = _
      rw [hcg]
      show overrideGo base nodeId
          (cur.set i (pdoUpdate base nodeId (pdoIndex cur (cur.get ⟨i, hic⟩))
            (cur.get ⟨i, hic⟩))) (i + 1) fuel = _
      rw [hidx]
    have hlen' : (cur.set i (pdoUpdate base nodeId i (cur.get ⟨i, hic⟩))).length =
        orig.length := by
      rw [List.length_set]
      exact hlen
    have hres := ih (i + 1) (cur.set i (pdoUpdate base nodeId i (cur.get ⟨i, hic⟩)))
      hlen' (by omega) ?_ ?_ j hj
    · rw [get_congr_list _ _ hstep j _
        (by rw [overrideGo_length, List.length_set, hlen]; exact hj)]
      exact hres
    · intro jj hjo hjk
      by_cases hji : jj = i
      · subst hji
        have : (cur.set jj (pdoUpdate base nodeId jj (cur.get ⟨jj, hic⟩))).get
            ⟨jj, by omega⟩ = pdoUpdate base nodeId jj (cur.get ⟨jj, hic⟩) := by
          simp [List.get_eq_getElem]
        rw [this, hcur_i]
      · have hjc : jj < cur.length := by omega
        have : (cur.set i (pdoUpdate base nodeId i (cur.get ⟨i, hic⟩))).get
            ⟨jj, by omega⟩ = cur.get ⟨jj, hjc⟩ := by
          simp [List.get_eq_getElem, List.getElem_set_ne (Ne.symm hji)]
        rw [this]
        exact hbefore jj hjo (by omega)
    · intro jj hjo hjk
      have hjc : jj < cur.length := by omega
      have : (cur.set i (pdoUpdate base nodeId i (cur.get ⟨i, hic⟩))).get
          ⟨jj, by omega⟩ = cur.get ⟨jj, hjc⟩ := by
        simp [List.get_eq_getElem, List.getElem_set_ne (by omega : i ≠ jj)]
      rw [this]
      exact hafter jj hjo (by omega)

theorem pdoEntries_mappings_ne (objs : List (Nat × String)) (tag : String) (base : Nat)
    (k kp : Nat) (hkk : k ≠ kp) (m : RawMapping) (ms : List RawMapping)
    (mp : RawMapping) (msp : List RawMapping) :
    pdoEntries objs tag base k 0 (m :: ms) ≠ pdoEntries objs tag base kp 0 (mp :: msp) := by
  intro he
  simp only [pdoEntries, List.cons.injEq, MappedEntry.mk.injEq] at he
  obtain ⟨⟨h1, h2, h3, hsig, h5⟩, h6⟩ := he
  omega

theorem buildPdos_pairwise (objs : List (Nat × String)) (tag : String)
    (cobBase sigBase nodeId : Nat) (slots : List (Nat × List RawMapping))
    (hslots : slots.Pairwise (fun a b => a.1 ≠ b.1)) :
    (buildPdos objs tag cobBase sigBase nodeId slots).Pairwise
      (fun p q => p.mappings ≠ q.mappings) := by
  unfold buildPdos
  rw [List.pairwise_filterMap]
  refine hslots.imp ?_
  intro a b hab p hp q hq
  by_cases hea : a.2.isEmpty
  · rw [if_pos hea] at hp
    cases hp
  · by_cases heb : b.2.isEmpty
    · rw [if_pos heb] at hq
      cases hq
    · rw [if_neg hea] at hp
      rw [if_neg heb] at hq
      cases hp
      cases hq
      show pdoEntries objs tag sigBase a.1 0 a.2 ≠ pdoEntries objs tag sigBase b.1 0 b.2
      cases ha2 : a.2 with
      | nil => exact absurd (by simp [ha2]) hea
      | cons m ms =>
        cases hb2 : b.2 with
        | nil => exact absurd (by simp [hb2]) heb
        | cons mp msp => exact pdoEntries_mappings_ne objs tag sigBase a.1 b.1 hab m ms mp msp

theorem tpdoSlots_pairwise (d : EdsDevice) :
    (tpdoSlots d).Pairwise (fun a b => a.1 ≠ b.1) := by
  norm_num [tpdoSlots, List.pairwise_cons]

theorem rpdoSlots_pairwise (d : EdsDevice) :
    (rpdoSlots d).Pairwise (fun a b => a.1 ≠ b.1) := by
  norm_num [rpdoSlots, List.pairwise_cons]

theorem pairwise_ne_indexed {α : Type} (R : α → α → Prop) (hsym : ∀ a b, R a b → R b a)
    (l : List α) (h : l.Pairwise R) :
    ∀ i j (hi : i < l.length) (hj : j < l.length), i ≠ j →
      R (l.get ⟨i, hi⟩) (l.get ⟨j, hj⟩) := by
  intro i j hi hj hij
  rcases Nat.lt_or_ge i j with hlt | hge
  · exact List.pairwise_iff_get.mp h ⟨i, hi⟩ ⟨j, hj⟩ (Fin.mk_lt_mk.mpr hlt)
  · have hlt : j < i := by omega
    exact hsym _ _ (List.pairwise_iff_get.mp h ⟨j, hj⟩ ⟨i, hi⟩ (Fin.mk_lt_mk.mpr hlt))

theorem parse_tpdos_dist (d : EdsDevice) :
    ∀ i j (hi : i < (parse_eds_file d).tpdos.length)
      (hj : j < (parse_eds_file d).tpdos.length), i ≠ j →
      ((parse_eds_file d).tpdos.get ⟨i, hi⟩).mappings ≠
        ((parse_eds_file d).tpdos.get ⟨j, hj⟩).mappings :=
  pairwise_ne_indexed _ (fun _ _ h he => h he.symm) _
    (buildPdos_pairwise _ _ _ _ _ _ (tpdoSlots_pairwise d))

theorem parse_rpdos_dist (d : EdsDevice) :
    ∀ i j (hi : i < (parse_eds_file d).rpdos.length)
      (hj : j < (parse_eds_file d).rpdos.length), i ≠ j →
      ((parse_eds_file d).rpdos.get ⟨i, hi⟩).mappings ≠
        ((parse_eds_file d).rpdos.get ⟨j, hj⟩).mappings :=
  pairwise_ne_indexed _ (fun _ _ h he => h he.symm) _
    (buildPdos_pairwise _ _ _ _ _ _ (rpdoSlots_pairwise d))

theorem pdoUpdate_cob (base nodeId idx : Nat) (p : EdsPdo) :
    (pdoUpdate base nodeId idx p).cob_id = base + 0x100 * idx + nodeId := rfl

theorem overridePdoCobs_get (base nodeId : Nat) (lst : List EdsPdo)
    (hdist : ∀ i j (hi : i < lst.length) (hj : j < lst.length), i ≠ j →
      (lst.get ⟨i, hi⟩).mappings ≠ (lst.get ⟨j, hj⟩).mappings)
    (n : Nat) (hn : n < lst.length) :
    (overridePdoCobs base nodeId lst).get
        ⟨n, by unfold overridePdoCobs; rw [overrideGo_length]; exact hn⟩ =
      pdoUpdate base nodeId n (lst.get ⟨n, hn⟩) :=
  overrideGo_spec base nodeId lst hdist lst.length 0 lst rfl (by omega)
    (fun j hj hj0 => absurd hj0 (Nat.not_lt_zero j))
    (fun j hj hij => rfl) n hn

theorem overridePdoCobs_map (base nodeId : Nat) (lst : List EdsPdo)
    (hdist : ∀ i j (hi : i < lst.length) (hj : j < lst.length), i ≠ j →
      (lst.get ⟨i, hi⟩).mappings ≠ (lst.get ⟨j, hj⟩).mappings) :
    (overridePdoCobs base nodeId lst).map EdsPdo.cob_id =
      (List.range lst.length).map (fun i => base + 0x100 * i + nodeId) := by
  have hlen : (overridePdoCobs base nodeId lst).length = lst.length := by
    unfold overridePdoCobs
    exact overrideGo_length base nodeId lst.length lst 0
  apply List.ext_get
  · simp [hlen]
  · intro n h1 h2
    have hn : n < lst.length := by
      rw [List.length_map, hlen] at h1
      exact h1
    simp only [List.get_eq_getElem, List.getElem_map, List.getElem_range]
    have hov := overridePdoCobs_get base nodeId lst hdist n hn
    simp only [List.get_eq_getElem] at hov
    rw [hov]
    rfl

/-! ## C6 theorems -/

/-- C6 counterexample: a device whose only transmit mapping sits in PDO
slot 1 (its imported communication identifier is `0x180 + 0x100·1 + 5 =
0x285`) has its identifier recomputed on a node-id override to 7 as
`0x187` — the compacted list position 0 is used in the formula, not the
slot 1, which would give `0x287`. -/
theorem c6_counterexample :
    (parse_eds_file devSlot1).tpdos.map EdsPdo.cob_id = [0x285] ∧
    (applyNodeIdOverride (parse_eds_file devSlot1) 7).tpdos.map EdsPdo.cob_id = [0x187] ∧
    (0x187 : Nat) ≠ 0x180 + 0x100 * 1 + 7 := by
  refine ⟨by decide, by decide, by decide⟩

/-- C6 amended: on a node-id override the communication identifiers are
recomputed as `0x180 + 0x100·i + nodeId` (transmit) and
`0x200 + 0x100·i + nodeId` (receive) where `i` is the position of the
PDO in the compacted list of populated slots, not the slot number; for a
device whose populated slots are exactly an initial segment (such as the
scenario with one transmit PDO of two mapped objects in slot 0) the two
coincide, giving identifier `0x187` under override 7 with mapping signal
identities 100 and 101. -/
theorem c6_amended (d : EdsDevice) (nodeId : Nat) :
    (applyNodeIdOverride (parse_eds_file d) nodeId).tpdos.map EdsPdo.cob_id =
      (List.range (parse_eds_file d).tpdos.length).map
        (fun i => 0x180 + 0x100 * i + nodeId) ∧
    (applyNodeIdOverride (parse_eds_file d) nodeId).rpdos.map EdsPdo.cob_id =
      (List.range (parse_eds_file d).rpdos.length).map
        (fun i => 0x200 + 0x100 * i + nodeId) ∧
    (applyNodeIdOverride (parse_eds_file devScenarioD) 7).tpdos.map EdsPdo.cob_id =
      [0x187] ∧
    pdoSignalIds (parse_eds_file devScenarioD).tpdos = [100, 101] := by
  refine ⟨?_, ?_, by decide, by decide⟩
  · show (overridePdoCobs 0x180 nodeId (parse_eds_file d).tpdos).map EdsPdo.cob_id = _
    exact overridePdoCobs_map _ _ _ (parse_tpdos_dist d)
  · show (overridePdoCobs 0x200 nodeId (parse_eds_file d).rpdos).map EdsPdo.cob_id = _
    exact overridePdoCobs_map _ _ _ (parse_rpdos_dist d)

/-- C7 amended: the parser performs no brace-nesting validation and has
no error channel; it returns exactly the nodes its pattern matching
extracts, so the malformed variant of the source yields only the
well-formed prefix node while the fully well-formed variant yields both
nodes. -/
theorem c7_amended :
    simple_dts_parse brokenDts = [s1Node] ∧
    simple_dts_parse goodDts = [s1Node, b2Node] := by
  constructor
  · decide
  · decide

end LQ
